/-
Verification of the nl2sql query pipeline.

Shallow embedding of the Python sources:
  * query_executor.py  (QueryExecutor: _validate_query, _balanced_quotes,
                        _has_multiple_statements, _remove_string_literals, execute)
  * sql_generator.py   (SQLGenerator.generate and its clause builders)
  * query_parser.py    (NaturalLanguageParser.parse and its extraction stages)
  * nl_parser.py       (_calculate_confidence, _parse_limit)
  * feedback_manager.py (FeedbackManager.get_confidence_adjustment)
  * schema_manager.py  (the declared Tally schema relationships)

Machine strings are Lean `String`s; Python floats are modelled as `Rat`;
Python ints as `Int`/`Nat`.  Character case operations are modelled on the
ASCII fragment (all SQL keywords and schema names in the program are ASCII).
-/
import Mathlib

namespace Nl2Sql

/-! ### Basic character/string helpers (Python `str` operations) -/

/-- The single-quote character `'` (code 39), written via `Char.ofNat`. -/
def squote : Char := Char.ofNat 39

/-- The backslash character `\` (code 92). -/
def bslash : Char := Char.ofNat 92

/-- The double-quote character `"` (code 34). -/
def dquote : Char := Char.ofNat 34

/-- The placeholder character `?` (code 63). -/
def qmChar : Char := Char.ofNat 63

/-- One-character string holding a single quote. -/
def sq : String := String.singleton squote

/-- ASCII lower-casing of a character (Python `str.lower` on ASCII input). -/
def asciiLower (c : Char) : Char :=
  if 65 ≤ c.toNat ∧ c.toNat ≤ 90 then Char.ofNat (c.toNat + 32) else c

/-- ASCII upper-casing of a character (Python `str.upper` on ASCII input). -/
def asciiUpper (c : Char) : Char :=
  if 97 ≤ c.toNat ∧ c.toNat ≤ 122 then Char.ofNat (c.toNat - 32) else c

/-- Python `s.lower()`. -/
def pyLower (s : String) : String := ⟨s.data.map asciiLower⟩

/-- Python `s.upper()`. -/
def pyUpper (s : String) : String := ⟨s.data.map asciiUpper⟩

/-- Python whitespace characters stripped by `str.strip()` / matched by `\s`. -/
def isPySpace (c : Char) : Bool :=
  c == ' ' || c == '\t' || c == '\n' || c == '\r' ||
    c == Char.ofNat 11 || c == Char.ofNat 12

/-- `isPre pre l` : `pre` is a prefix of `l` (Python `startswith` on char lists). -/
def isPre : List Char → List Char → Bool
  | [], _ => true
  | _ :: _, [] => false
  | a :: as, b :: bs => a == b && isPre as bs

/-- `subAt sub l` : `sub` occurs in `l` (at any position). -/
def subAt (sub : List Char) : List Char → Bool
  | [] => isPre sub []
  | c :: cs => isPre sub (c :: cs) || subAt sub cs

/-- Python `sub in s` (substring containment). -/
def strIn (sub s : String) : Bool := subAt sub.data s.data

/-- Python `s.strip()` (strip leading and trailing whitespace). -/
def pyStrip (s : String) : String :=
  ⟨((s.data.dropWhile isPySpace).reverse.dropWhile isPySpace).reverse⟩

/-- Count occurrences of a character in a string. -/
def countChar (c : Char) (s : String) : Nat := s.data.count c

/-- Count of `?` placeholder characters in a string. -/
def countQ (s : String) : Nat := s.data.count qmChar

/-- Non-overlapping substring occurrence count (Python `str.count`),
for a non-empty pattern.  Structural recursion on a fuel bound (one unit per
consumed character, so any fuel above the list length is sufficient). -/
def countSubAux (sub : List Char) : Nat → List Char → Nat
  | 0, _ => 0
  | _, [] => 0
  | fuel + 1, c :: cs =>
    if isPre sub (c :: cs) then
      1 + countSubAux sub fuel (List.drop (sub.length - 1) cs)
    else countSubAux sub fuel cs

/-- Python `s.count(sub)` for a non-empty `sub`. -/
def countSub (sub s : String) : Nat := countSubAux sub.data (s.data.length + 1) s.data

/-! ### QueryExecutor (query_executor.py) -/

/-- `QueryExecutor.dangerous_keywords`. -/
def dangerousKeywords : List String :=
  ["DROP", "TRUNCATE", "EXEC", "EXECUTE", "SCRIPT", "SHUTDOWN", "GRANT", "REVOKE"]

/-- Result of `QueryExecutor._validate_query`: `{'safe': ..., 'reason': ...}`. -/
structure Validation where
  safe : Bool
  reason : Option String
deriving DecidableEq

/-- Helper of `_remove_string_literals`: drop characters up to and including the
next occurrence of the quote `q`; `none` when `q` does not occur. -/
def dropToQuote (q : Char) : List Char → Option (List Char)
  | [] => none
  | c :: cs => if c == q then some cs else dropToQuote q cs

/-- One pass of `re.sub(r"'[^']*'", "''", s)` (and likewise for `"`): replace
the contents of each complete `q`-delimited literal with the empty string.
Structural recursion on a fuel bound (one unit per consumed character). -/
def removeLits (q : Char) : Nat → List Char → List Char
  | 0, l => l
  | _, [] => []
  | fuel + 1, c :: cs =>
    if c == q then
      match dropToQuote q cs with
      | some rest => q :: q :: removeLits q fuel rest
      | none => c :: cs
    else c :: removeLits q fuel cs

/-- `QueryExecutor._remove_string_literals`. -/
def removeStringLiterals (s : String) : String :=
  let l1 := removeLits squote (s.data.length + 1) s.data
  ⟨removeLits dquote (l1.length + 1) l1⟩

/-- `QueryExecutor._has_multiple_statements`. -/
def hasMultipleStatements (s : String) : Bool :=
  strIn ";" (removeStringLiterals s)

/-- `QueryExecutor._balanced_quotes`: counts of quote characters adjusted by the
counts of backslash-escaped quotes, each required to be even. -/
def balancedQuotes (s : String) : Bool :=
  let singleQuotes : Int :=
    (countChar squote s : Int) - (countSub ⟨[bslash, squote]⟩ s : Int)
  let doubleQuotes : Int :=
    (countChar dquote s : Int) - (countSub ⟨[bslash, dquote]⟩ s : Int)
  singleQuotes % 2 == 0 && doubleQuotes % 2 == 0

/-- `QueryExecutor._validate_query`. -/
def validateQuery (sqlQuery : String) : Validation :=
  let queryUpper := pyUpper sqlQuery
  match dangerousKeywords.find? (fun kw => strIn kw queryUpper) with
  | some kw =>
    ⟨false, some ("Query contains potentially dangerous keyword: " ++ kw)⟩
  | none =>
    if hasMultipleStatements sqlQuery then
      ⟨false, some "Multiple SQL statements detected. Only single statements are allowed."⟩
    else if strIn "--" sqlQuery || strIn "/*" sqlQuery then
      ⟨false, some "SQL comments detected. Comments are not allowed for security."⟩
    else if !(balancedQuotes sqlQuery) then
      ⟨false, some "Unbalanced quotes detected. Possible SQL injection attempt."⟩
    else ⟨true, none⟩

/-- The hand-edited SQL of spec scenario 5:
`SELECT * FROM users WHERE name = 'a' OR '1'='1'`. -/
def tautSQL : String :=
  "SELECT * FROM users WHERE name = " ++ sq ++ "a" ++ sq ++ " OR " ++
    sq ++ "1" ++ sq ++ "=" ++ sq ++ "1" ++ sq

/-- A two-character SQL string consisting of a backslash-escaped quote. -/
def escQuoteSQL : String := ⟨[bslash, squote]⟩

/-! ### QueryExecutor.execute (query_executor.py)

`execute` is modelled over an abstract behaviour of the sqlite3 connection and
cursor: each call the connection makes (`cursor()`, `execute`+fetch, `commit`,
`rollback`, `close`) either succeeds with a value or raises.  The model follows
Python's `try/except/finally` semantics: an exception raised in the `finally`
clause supersedes any pending return value or pending exception. -/

/-- A Python exception escaping `execute`. -/
inductive PyExc where
  | sqliteError (msg : String)
  | unboundLocal (name : String)

/-- Failure raised by `cursor.execute`/fetch: either `sqlite3.Error` (first
`except` clause) or any other `Exception` (second `except` clause). -/
inductive DBFail where
  | sqlite (msg : String)
  | other (msg : String)

/-- Behaviour of the cursor obtained from the connection for this call. -/
structure CursorBehavior where
  /-- Outcome of `cursor.execute(sql)` together with `cursor.description` /
  `cursor.fetchall()`: raises, or yields (column names, rows). -/
  execOutcome : Except DBFail (List String × List (List String))
  /-- `cursor.rowcount` after a mutating statement. -/
  rowcount : Int
  /-- Whether `cursor.close()` raises (message of the `sqlite3.Error`). -/
  closeRaises : Option String

/-- Behaviour of the sqlite3 connection for this call. -/
structure ConnBehavior where
  /-- Whether `connection.cursor()` raises an `sqlite3.Error` (e.g. the
  connection is closed), with the error message. -/
  cursorRaises : Option String
  cursor : CursorBehavior
  /-- Whether `connection.commit()` raises an `sqlite3.Error`. -/
  commitRaises : Option String
  /-- Whether `connection.rollback()` raises an `sqlite3.Error`. -/
  rollbackRaises : Option String

/-- The result dictionary returned by `QueryExecutor.execute`
(`rows_affected` is present only on the success paths). -/
structure ExecResult where
  success : Bool
  data : Option (List (List (String × String)))
  error : Option String
  rowsAffected : Option Int

/-- Either a returned result dictionary or an escaped Python exception. -/
inductive PyOutcome where
  | ret (r : ExecResult)
  | exc (e : PyExc)

/-- `QueryExecutor.execute`.  `conn = none` models `connection` being `None`. -/
def executeModel (sqlQuery : String) (conn : Option ConnBehavior) : PyOutcome :=
  let validation := validateQuery sqlQuery
  if validation.safe = false then
    .ret ⟨false, none, validation.reason, none⟩
  else
    match conn with
    | none => .ret ⟨false, none, some "No database connection available", none⟩
    | some c =>
      match c.cursorRaises with
      | some _ =>
        -- `cursor = connection.cursor()` raised `sqlite3.Error`; the handler
        -- runs (its `connection.rollback()` may itself raise), and then the
        -- `finally` clause evaluates `cursor.close()` with the local `cursor`
        -- never assigned, raising `UnboundLocalError`, which supersedes any
        -- pending return value or pending exception from the handler.
        .exc (.unboundLocal "cursor")
      | none =>
        -- `_extract_parameters` returns `[]`, so `cursor.execute(sql_query)`.
        let startsSelect := isPre "SELECT".data (pyUpper (pyStrip sqlQuery)).data
        let pending : PyOutcome :=
          match c.cursor.execOutcome with
          | .error (.sqlite m) =>
            -- first handler: rollback (connection is non-None), then return
            match c.rollbackRaises with
            | some m2 => .exc (.sqliteError m2)
            | none => .ret ⟨false, none, some ("Database error: " ++ m), none⟩
          | .error (.other m) =>
            .ret ⟨false, none, some ("Unexpected error: " ++ m), none⟩
          | .ok (cols, rows) =>
            if startsSelect then
              .ret ⟨true, some (rows.map (fun r => cols.zip r)), none,
                    some (Int.ofNat rows.length)⟩
            else
              match c.commitRaises with
              | some m =>
                match c.rollbackRaises with
                | some m2 => .exc (.sqliteError m2)
                | none => .ret ⟨false, none, some ("Database error: " ++ m), none⟩
              | none => .ret ⟨true, none, none, some c.cursor.rowcount⟩
        -- `finally: cursor.close()`
        match c.cursor.closeRaises with
        | some m => .exc (.sqliteError m)
        | none => pending

/-- A connection behaviour standing for a closed sqlite3 connection:
`connection.cursor()` raises `sqlite3.ProgrammingError`. -/
def closedConn : ConnBehavior :=
  { cursorRaises := some "Cannot operate on a closed database."
    cursor := { execOutcome := .ok ([], []), rowcount := 0, closeRaises := none }
    commitRaises := none
    rollbackRaises := none }

/-! ### Schema catalog (schema_manager.py) -/

/-- A column entry of the schema: `{'name': ..., 'type': ...}`. -/
structure ColumnDef where
  name : String
  ctype : String
deriving DecidableEq

/-- A table entry of the schema dictionary: its key, `'columns'` and
`'relationships'`. -/
structure TableDef where
  name : String
  columns : List ColumnDef
  relationships : List String
deriving DecidableEq

/-- The schema dictionary, in insertion order. -/
def Schema : Type := List TableDef

/-- Dictionary lookup `schema[table]` (keys are unique in the source schema). -/
def schemaFind (schema : Schema) (t : String) : Option TableDef :=
  List.find? (fun td => td.name == t) schema

/-- Key membership `table in schema`. -/
def schemaHas (schema : Schema) (t : String) : Bool :=
  List.any schema (fun td => td.name == t)

/-! ### Structured query (query_parser.py `ParsedQuery` dataclass) -/

/-- `user_filters` dictionary: the mandatory identity pair. -/
structure UserFilters where
  user_id : String
  company_name : String
deriving DecidableEq

/-- A condition dictionary produced by the query parser: keys `'field'`,
`'operator'`, `'value'` and optional `'type'` (modelled with `""` standing for
an absent key, matching `condition.get('type', '')`). -/
structure Cond where
  field : String
  op : String
  value : String
  ctype : String := ""
deriving DecidableEq

/-- A join dictionary: keys `'type'` (read by `join.get('type', 'INNER')`),
`'table1'`, `'table2'`, `'on'`. -/
structure Join where
  jtype : Option String
  table1 : String
  table2 : String
  onCond : String
deriving DecidableEq

/-- An aggregation dictionary: keys `'function'` and `'column'`. -/
structure Agg where
  func : String
  column : String
deriving DecidableEq

/-- An order-by dictionary: keys `'column'` and `'direction'`
(read by `order.get('direction', 'ASC')`). -/
structure OrderItem where
  column : String
  direction : Option String
deriving DecidableEq

/-- The `ParsedQuery` dataclass of query_parser.py. -/
structure ParsedQuery where
  action : String
  tables : List String
  columns : List String
  conditions : List Cond
  joins : List Join
  aggregations : List Agg
  group_by : List String
  order_by : List OrderItem
  limit : Option Int
  user_filters : UserFilters
deriving DecidableEq

/-! ### SQLGenerator (sql_generator.py) -/

/-- Mutable state of a `SQLGenerator` instance during one `generate` call:
`self.parameters`, `self.assumptions`, `self.confidence`. -/
structure GenState where
  parameters : List String
  assumptions : List String
  confidence : Rat
deriving DecidableEq

/-- Python `sep.join(parts)`. -/
def joinSep (sep : String) : List String → String
  | [] => ""
  | [x] => x
  | x :: y :: xs => x ++ sep ++ joinSep sep (y :: xs)

/-- Decimal digit characters of a natural number (Python `str` on a
non-negative int), accumulator form. -/
def natDigitsAux (n : Nat) (acc : List Char) : List Char :=
  let d := Char.ofNat (48 + n % 10)
  if n < 10 then d :: acc else natDigitsAux (n / 10) (d :: acc)
termination_by n
decreasing_by
  exact Nat.div_lt_self (by omega) (by omega)

/-- Python `str(n)` for a natural number. -/
def natStr (n : Nat) : String := ⟨natDigitsAux n []⟩

/-- Python `str(n)` for an int. -/
def pyIntStr (n : Int) : String :=
  if n < 0 then "-" ++ natStr (-n).toNat else natStr n.toNat

/-- Numeric value of a run of digit characters (Python `int` on a digit
string). -/
def digitsToNat (l : List Char) : Nat :=
  l.foldl (fun acc c => acc * 10 + (c.toNat - 48)) 0

/-- Four digits at the head of the input, as (digit string, rest). -/
def fourDigitsAt : List Char → Option (String × List Char)
  | a :: b :: c :: d :: rest =>
    if a.isDigit && b.isDigit && c.isDigit && d.isDigit then
      some (⟨[a, b, c, d]⟩, rest)
    else none
  | _ => none

/-- `re.search(r'(\d{4})', value)`: the leftmost run of four consecutive
digits, as a string. -/
def findFour : List Char → Option String
  | [] => none
  | c :: cs =>
    match fourDigitsAt (c :: cs) with
    | some r => some r.1
    | none => findFour cs

/-- The month-name-to-number dictionary of `_build_date_condition`. -/
def monthList : List (String × String) :=
  [("january", "01"), ("february", "02"), ("march", "03"), ("april", "04"),
   ("may", "05"), ("june", "06"), ("july", "07"), ("august", "08"),
   ("september", "09"), ("october", "10"), ("november", "11"), ("december", "12")]

/-- The month name (with its number) matching at the head of `l`, if any.
At most one month name can match at a given position. -/
def monthAt (l : List Char) : Option (String × String) :=
  monthList.findSome? (fun mp => if isPre mp.1.data l then some mp else none)

/-- `re.search(r'(january|...|december)\s+(\d{4})', value.lower())`: leftmost
month name followed by whitespace and four digits; returns the month number
(per the dictionary) and the year digits.  A position where the month name
matches but the whitespace or digits fail is skipped, and the scan continues
at the next position. -/
def findMonthYear : List Char → Option (String × String)
  | [] => none
  | c :: cs =>
    match monthAt (c :: cs) with
    | some (mname, mnum) =>
      let rest := List.drop mname.length (c :: cs)
      let ws := rest.takeWhile isPySpace
      if ws.length == 0 then findMonthYear cs
      else
        match fourDigitsAt (rest.drop ws.length) with
        | some r => some (mnum, r.1)
        | none => findMonthYear cs
    | none => findMonthYear cs

/-- `re.search(r'(\d+)\s+(day|month|year)', value)`: leftmost digit run
followed by whitespace and one of the three unit words; returns the numeric
value and the unit.  (The digit run and whitespace run are forced to be
maximal: shortening either would place a digit or a space where the next
regex element requires otherwise.) -/
def findNumUnit : List Char → Option (Nat × String)
  | [] => none
  | c :: cs =>
    if c.isDigit then
      let run := List.takeWhile Char.isDigit (c :: cs)
      let rest := List.drop run.length (c :: cs)
      let ws := rest.takeWhile isPySpace
      if ws.length == 0 then findNumUnit cs
      else
        let rest2 := rest.drop ws.length
        if isPre "day".data rest2 then some (digitsToNat run, "day")
        else if isPre "month".data rest2 then some (digitsToNat run, "month")
        else if isPre "year".data rest2 then some (digitsToNat run, "year")
        else findNumUnit cs
    else findNumUnit cs

/-- Splitting helper for Python `value.split(sep)` with non-empty `sep`. -/
def pySplitAux (sep : List Char) : List Char → List Char → List (List Char)
  | [], acc => [acc.reverse]
  | c :: cs, acc =>
    if isPre sep (c :: cs) then
      acc.reverse :: pySplitAux sep (List.drop (sep.length - 1) cs) []
    else pySplitAux sep cs (c :: acc)
termination_by l => l.length
decreasing_by
  all_goals simp only [List.length_drop, List.length_cons]
  all_goals omega

/-- Python `s.split(sep)` for a non-empty separator. -/
def pySplit (sep s : String) : List String :=
  (pySplitAux sep.data s.data []).map (fun l => ⟨l⟩)

/-- `SQLGenerator._build_date_condition`.  Returns the condition string and the
updated generator state (parameters/assumptions). -/
def buildDateCondition (c : Cond) (st : GenState) : String × GenState :=
  -- the fallback at the bottom of the function: bind the value, emit `field = ?`
  let fallback : String × GenState :=
    (c.field ++ " = ?", { st with parameters := st.parameters ++ [c.value] })
  if c.ctype == "year" then
    match findFour c.value.data with
    | some year =>
      ("strftime(" ++ sq ++ "%Y" ++ sq ++ ", " ++ c.field ++ ") = " ++
        sq ++ year ++ sq, st)
    | none => fallback
  else if c.ctype == "month_year" then
    match findMonthYear (pyLower c.value).data with
    | some (mnum, year) =>
      ("strftime(" ++ sq ++ "%Y-%m" ++ sq ++ ", " ++ c.field ++ ") = " ++
        sq ++ year ++ "-" ++ mnum ++ sq, st)
    | none => fallback
  else if c.ctype == "relative_date" then
    match findNumUnit c.value.data with
    | some (n, unit) =>
      let st' :=
        { st with
            assumptions :=
              st.assumptions ++
                ["Interpreted " ++ sq ++ c.value ++ sq ++ " as date range from today"] }
      if unit == "day" then
        (c.field ++ " >= date(" ++ sq ++ "now" ++ sq ++ ", " ++
          sq ++ "-" ++ natStr n ++ " days" ++ sq ++ ")", st')
      else if unit == "month" then
        (c.field ++ " >= date(" ++ sq ++ "now" ++ sq ++ ", " ++
          sq ++ "-" ++ natStr n ++ " months" ++ sq ++ ")", st')
      else
        (c.field ++ " >= date(" ++ sq ++ "now" ++ sq ++ ", " ++
          sq ++ "-" ++ natStr n ++ " years" ++ sq ++ ")", st')
    | none => fallback
  else if c.ctype == "today" then
    ("date(" ++ c.field ++ ") = date(" ++ sq ++ "now" ++ sq ++ ")", st)
  else if c.ctype == "current_period" then
    if strIn "month" c.value then
      ("strftime(" ++ sq ++ "%Y-%m" ++ sq ++ ", " ++ c.field ++ ") = strftime(" ++
        sq ++ "%Y-%m" ++ sq ++ ", " ++ sq ++ "now" ++ sq ++ ")", st)
    else if strIn "year" c.value then
      ("strftime(" ++ sq ++ "%Y" ++ sq ++ ", " ++ c.field ++ ") = strftime(" ++
        sq ++ "%Y" ++ sq ++ ", " ++ sq ++ "now" ++ sq ++ ")", st)
    else fallback
  else if c.ctype == "last_period" then
    if strIn "month" c.value then
      ("strftime(" ++ sq ++ "%Y-%m" ++ sq ++ ", " ++ c.field ++ ") = strftime(" ++
        sq ++ "%Y-%m" ++ sq ++ ", date(" ++ sq ++ "now" ++ sq ++ ", " ++
        sq ++ "-1 month" ++ sq ++ "))", st)
    else if strIn "year" c.value then
      ("strftime(" ++ sq ++ "%Y" ++ sq ++ ", " ++ c.field ++ ") = strftime(" ++
        sq ++ "%Y" ++ sq ++ ", date(" ++ sq ++ "now" ++ sq ++ ", " ++
        sq ++ "-1 year" ++ sq ++ "))", st)
    else fallback
  else if c.ctype == "since_date" then
    (c.field ++ " >= ?", { st with parameters := st.parameters ++ [c.value] })
  else if c.ctype == "before_date" then
    (c.field ++ " < ?", { st with parameters := st.parameters ++ [c.value] })
  else if c.ctype == "on_date" then
    ("date(" ++ c.field ++ ") = ?", { st with parameters := st.parameters ++ [c.value] })
  else fallback

/-- One iteration of the condition loop in `_build_where_clause`; the
accumulator carries the `conditions` string list and the generator state. -/
def whereStep (acc : List String × GenState) (c : Cond) : List String × GenState :=
  let conds := acc.1
  let st := acc.2
  if c.op == "date_condition" then
    let r := buildDateCondition c st
    if r.1 ≠ "" then (conds ++ [r.1], r.2) else (conds, r.2)
  else if c.op == "raw_condition" then
    (conds ++ [c.value], st)
  else if c.op == "IS NULL" || c.op == "IS NOT NULL" then
    (conds ++ [c.field ++ " " ++ c.op], st)
  else if c.op == "LIKE" then
    (conds ++ [c.field ++ " LIKE ?"],
      { st with
          parameters := st.parameters ++ ["%" ++ c.value ++ "%"],
          assumptions := st.assumptions ++ ["Searching for partial match in " ++ c.field] })
  else if c.op == "IN" then
    let values := (pySplit "," c.value).map pyStrip
    let placeholders := joinSep ", " (values.map (fun _ => "?"))
    (conds ++ [c.field ++ " IN (" ++ placeholders ++ ")"],
      { st with parameters := st.parameters ++ values })
  else if c.op == "BETWEEN" then
    if strIn " and " (pyLower c.value) then
      let parts := pySplit " and " (pyLower c.value)
      (conds ++ [c.field ++ " BETWEEN ? AND ?"],
        { st with parameters := st.parameters ++
            [pyStrip (parts.headD ""), pyStrip ((parts.drop 1).headD "")] })
    else
      (conds ++ [c.field ++ " " ++ c.op ++ " ?"],
        { st with parameters := st.parameters ++ [c.value] })
  else
    (conds ++ [c.field ++ " " ++ c.op ++ " ?"],
      { st with parameters := st.parameters ++ [c.value] })

/-- The state after the mandatory tenant bindings at the top of
`_build_where_clause`: both identity values appended to `parameters`, plus the
data-isolation assumption. -/
def tenantState (p : ParsedQuery) (st : GenState) : GenState :=
  { st with
      parameters :=
        st.parameters ++ [p.user_filters.user_id, p.user_filters.company_name],
      assumptions :=
        st.assumptions ++ ["Added mandatory user and company filters for data isolation"] }

/-- `SQLGenerator._build_where_clause`: tenant predicates first, then one entry
per parsed condition. -/
def buildWhereClause (p : ParsedQuery) (st : GenState) : String × GenState :=
  let r := p.conditions.foldl whereStep ([], tenantState p st)
  ("WHERE " ++ joinSep " AND " ("user_id = ?" :: "company_name = ?" :: r.1), r.2)

/-- `SQLGenerator._find_column_table`. -/
def findColumnTable (column : String) (tables : List String) (schema : Schema) : String :=
  match tables.find? (fun t =>
      match schemaFind schema t with
      | some td => td.columns.any (fun ci => ci.name == column)
      | none => false) with
  | some t => t
  | none => tables.headD ""

/-- `SQLGenerator._build_select_clause`. -/
def buildSelectClause (p : ParsedQuery) (schema : Schema) (st : GenState) :
    String × GenState :=
  if p.aggregations ≠ [] then
    let aggItems := p.aggregations.map (fun agg =>
      if agg.func == "COUNT" && agg.column == "*" then "COUNT(*)"
      else agg.func ++ "(" ++ agg.column ++ ")")
    let aggCols := p.aggregations.map (·.column)
    let groupItems :=
      if p.group_by ≠ [] then p.group_by.filter (fun col => !(aggCols.contains col))
      else []
    ("SELECT " ++ joinSep ", " (aggItems ++ groupItems), st)
  else if p.columns ≠ [] then
    if p.columns == ["*"] then ("SELECT *", st)
    else if p.tables.length > 1 then
      let prefixed := p.columns.map (fun col =>
        if !(strIn "." col) && col ≠ "*" then
          let tp := findColumnTable col p.tables schema
          if tp ≠ "" then tp ++ "." ++ col else col
        else col)
      ("SELECT " ++ joinSep ", " prefixed, st)
    else ("SELECT " ++ joinSep ", " p.columns, st)
  else
    ("SELECT *",
      { st with
          assumptions :=
            st.assumptions ++ ["No specific columns mentioned, selecting all columns"],
          confidence := st.confidence * (8 / 10 : Rat) })

/-- `SQLGenerator._build_from_clause`. -/
def buildFromClause (p : ParsedQuery) (st : GenState) : String × GenState :=
  if p.tables = [] then
    ("FROM unknown_table",
      { st with
          assumptions := st.assumptions ++ ["No tables identified, query may fail"],
          confidence := st.confidence * (1 / 10 : Rat) })
  else ("FROM " ++ p.tables.headD "", st)

/-- The loop body of `_build_join_clauses`. -/
def joinStep (acc : List String × GenState) (join : Join) : List String × GenState :=
  let jt := join.jtype.getD "INNER"
  let clause := jt ++ " JOIN " ++ join.table2 ++ " ON " ++ join.onCond
  (acc.1 ++ [clause],
    { acc.2 with
        assumptions :=
          acc.2.assumptions ++
            ["Joined " ++ join.table1 ++ " with " ++ join.table2 ++
              " using " ++ jt ++ " JOIN"],
        confidence := acc.2.confidence * (9 / 10 : Rat) })

/-- `SQLGenerator._build_join_clauses`. -/
def buildJoinClauses (p : ParsedQuery) (st : GenState) : List String × GenState :=
  p.joins.foldl joinStep ([], st)

/-- `SQLGenerator._build_group_by_clause`. -/
def buildGroupByClause (p : ParsedQuery) (st : GenState) : String × GenState :=
  if p.group_by ≠ [] then
    ("GROUP BY " ++ joinSep ", " p.group_by, st)
  else if p.aggregations ≠ [] && p.columns ≠ [] then
    let aggCols := p.aggregations.map (·.column)
    let nonAgg := p.columns.filter (fun col =>
      col ≠ "*" && !(aggCols.contains col) && !(strIn "(" col && strIn ")" col))
    if nonAgg ≠ [] then
      ("GROUP BY " ++ joinSep ", " nonAgg,
        { st with
            assumptions := st.assumptions ++ ["Grouping by non-aggregated columns"],
            confidence := st.confidence * (9 / 10 : Rat) })
    else ("", st)
  else ("", st)

/-- `SQLGenerator._build_order_by_clause`. -/
def buildOrderByClause (p : ParsedQuery) : String :=
  "ORDER BY " ++ joinSep ", "
    (p.order_by.map (fun o => o.column ++ " " ++ o.direction.getD "ASC"))

/-- `SQLGenerator._generate_select`. -/
def generateSelect (p : ParsedQuery) (schema : Schema) (st : GenState) :
    String × GenState :=
  let selR := buildSelectClause p schema st
  let fromR := buildFromClause p selR.2
  let joinR := if p.joins ≠ [] then buildJoinClauses p fromR.2 else ([], fromR.2)
  let whereR := buildWhereClause p joinR.2
  let gbR :=
    if p.group_by ≠ [] || p.aggregations ≠ [] then buildGroupByClause p whereR.2
    else ("", whereR.2)
  let gbParts := if gbR.1 ≠ "" then [gbR.1] else []
  let obParts := if p.order_by ≠ [] then [buildOrderByClause p] else []
  let limitParts :=
    match p.limit with
    | some n => if n ≠ 0 then ["LIMIT " ++ pyIntStr n] else []
    | none => []
  (joinSep "\n" ([selR.1, fromR.1] ++ joinR.1 ++ [whereR.1] ++ gbParts ++
      obParts ++ limitParts),
    gbR.2)

/-- `SQLGenerator._generate_insert`. -/
def generateInsert (p : ParsedQuery) (schema : Schema) (st : GenState) :
    String × GenState :=
  if p.tables = [] then
    ("-- Unable to generate INSERT query: no table specified",
      { st with confidence := (1 / 10 : Rat) })
  else
    let table := p.tables.headD ""
    let st1 :=
      { st with
          assumptions :=
            st.assumptions ++ ["INSERT query requires values and mandatory user/company fields"],
          confidence := (7 / 10 : Rat) }
    match schemaFind schema table with
    | some td =>
      -- `if col_name != 'guid' or col_name in ['user_id', 'company_name']`
      let columns0 := (td.columns.map (·.name)).filter (fun n =>
        n ≠ "guid" || n == "user_id" || n == "company_name")
      let columns1 :=
        if columns0.contains "user_id" then columns0 else columns0 ++ ["user_id"]
      let columns2 :=
        if columns1.contains "company_name" then columns1
        else columns1 ++ ["company_name"]
      let placeholders := joinSep ", " (columns2.map (fun _ => "?"))
      ("INSERT INTO " ++ table ++ " (" ++ joinSep ", " columns2 ++ ") VALUES (" ++
        placeholders ++ ")", st1)
    | none => ("INSERT INTO " ++ table ++ " VALUES (?)", st1)

/-- One iteration of the condition loop in `_generate_update` /
`_generate_delete` (these loops have no LIKE/IN/BETWEEN special cases). -/
def updateWhereStep (acc : List String × GenState) (c : Cond) :
    List String × GenState :=
  let conds := acc.1
  let st := acc.2
  if c.op == "date_condition" then
    let r := buildDateCondition c st
    if r.1 ≠ "" then (conds ++ [r.1], r.2) else (conds, r.2)
  else if c.op == "raw_condition" then
    (conds ++ [c.value], st)
  else if c.op == "IS NULL" || c.op == "IS NOT NULL" then
    (conds ++ [c.field ++ " " ++ c.op], st)
  else
    (conds ++ [c.field ++ " " ++ c.op ++ " ?"],
      { st with parameters := st.parameters ++ [c.value] })

/-- The state after the opening bookkeeping of `_generate_update` (assumption
and confidence 0.7) plus the two mandatory tenant parameters. -/
def updateState (p : ParsedQuery) (st : GenState) : GenState :=
  { st with
      parameters :=
        st.parameters ++ [p.user_filters.user_id, p.user_filters.company_name],
      assumptions :=
        st.assumptions ++ ["UPDATE query requires SET values and WHERE conditions"],
      confidence := (7 / 10 : Rat) }

/-- The condition loop of `_generate_update` (or, when there are no parsed
conditions, the update-all assumption and confidence penalty). -/
def updateCondResult (p : ParsedQuery) (st2 : GenState) : List String × GenState :=
  if p.conditions ≠ [] then p.conditions.foldl updateWhereStep ([], st2)
  else ([],
    { st2 with
        assumptions :=
          st2.assumptions ++
            ["No specific WHERE conditions - will update all records for this user/company"],
        confidence := st2.confidence * (5 / 10 : Rat) })

/-- `SQLGenerator._generate_update`. -/
def generateUpdate (p : ParsedQuery) (schema : Schema) (st : GenState) :
    String × GenState :=
  if p.tables = [] then
    ("-- Unable to generate UPDATE query: no table specified",
      { st with confidence := (1 / 10 : Rat) })
  else
    let table := p.tables.headD ""
    let setClause := "SET column_name = ?"
    let condR := updateCondResult p (updateState p st)
    let whereClause :=
      "WHERE " ++ joinSep " AND " ("user_id = ?" :: "company_name = ?" :: condR.1)
    (joinSep "\n" ["UPDATE " ++ table, setClause, whereClause], condR.2)

/-- The state after the mandatory tenant bindings of `_generate_delete`. -/
def deleteState (p : ParsedQuery) (st : GenState) : GenState :=
  { st with
      parameters :=
        st.parameters ++ [p.user_filters.user_id, p.user_filters.company_name] }

/-- The condition loop of `_generate_delete` (or, when there are no parsed
conditions, the delete-all assumption and confidence penalty). -/
def deleteCondResult (p : ParsedQuery) (st2 : GenState) : List String × GenState :=
  if p.conditions ≠ [] then p.conditions.foldl updateWhereStep ([], st2)
  else ([],
    { st2 with
        assumptions :=
          st2.assumptions ++
            ["No specific WHERE conditions - this would delete ALL records for this user/company"],
        confidence := st2.confidence * (2 / 10 : Rat) })

/-- `SQLGenerator._generate_delete`. -/
def generateDelete (p : ParsedQuery) (schema : Schema) (st : GenState) :
    String × GenState :=
  if p.tables = [] then
    ("-- Unable to generate DELETE query: no table specified",
      { st with confidence := (1 / 10 : Rat) })
  else
    let table := p.tables.headD ""
    let condR := deleteCondResult p (deleteState p st)
    let whereClause :=
      "WHERE " ++ joinSep " AND " ("user_id = ?" :: "company_name = ?" :: condR.1)
    (joinSep "\n" ["DELETE FROM " ++ table, whereClause], condR.2)

/-- The dictionary returned by `SQLGenerator.generate`. -/
structure GenResult where
  query : String
  parameters : List String
  assumptions : List String
  confidence : Rat
deriving DecidableEq

/-- `SQLGenerator.generate`: reset the state, dispatch on the action. -/
def generate (p : ParsedQuery) (schema : Schema) : GenResult :=
  let st : GenState := ⟨[], [], 1⟩
  let r :=
    if p.action == "SELECT" then generateSelect p schema st
    else if p.action == "INSERT" then generateInsert p schema st
    else if p.action == "UPDATE" then generateUpdate p schema st
    else if p.action == "DELETE" then generateDelete p schema st
    else generateSelect p schema st
  ⟨r.1, r.2.parameters, r.2.assumptions, r.2.confidence⟩

/-! ### NaturalLanguageParser (query_parser.py): keyword tables -/

/-- `self.action_patterns`, in dictionary insertion order. -/
def actionKeywordTable : List (String × List String) :=
  [("SELECT", ["show", "display", "get", "find", "list", "fetch", "retrieve",
               "select", "give me", "what are", "which", "view", "report",
               "summary", "details"]),
   ("INSERT", ["insert", "add", "create", "new", "entry"]),
   ("UPDATE", ["update", "modify", "change", "set", "edit"]),
   ("DELETE", ["delete", "remove", "drop"])]

/-- `self.table_aliases`, in dictionary insertion order. -/
def tableAliases : List (String × String) :=
  [("employees", "mst_employee"), ("employee", "mst_employee"),
   ("staff", "mst_employee"), ("workers", "mst_employee"),
   ("ledgers", "mst_ledger"), ("ledger", "mst_ledger"),
   ("accounts", "mst_ledger"), ("account", "mst_ledger"),
   ("parties", "mst_ledger"), ("customers", "mst_ledger"),
   ("suppliers", "mst_ledger"), ("vendors", "mst_ledger"),
   ("items", "mst_stock_item"), ("stock", "mst_stock_item"),
   ("inventory", "mst_stock_item"), ("products", "mst_stock_item"),
   ("goods", "mst_stock_item"),
   ("vouchers", "trn_voucher"), ("voucher", "trn_voucher"),
   ("transactions", "trn_voucher"), ("entries", "trn_voucher"),
   ("sales", "trn_voucher"), ("purchases", "trn_voucher"),
   ("receipts", "trn_voucher"), ("payments", "trn_voucher"),
   ("accounting", "trn_accounting"), ("journal", "trn_accounting"),
   ("payroll", "trn_payhead"), ("salary", "trn_payhead"),
   ("wages", "trn_payhead"),
   ("attendance", "trn_attendance")]

/-- `self.column_aliases`, in dictionary insertion order. -/
def columnAliases : List (String × String) :=
  [("employee_name", "name"), ("emp_name", "name"), ("staff_name", "name"),
   ("party_name", "name"), ("customer_name", "name"), ("supplier_name", "name"),
   ("vendor_name", "name"), ("ledger_name", "name"), ("account_name", "name"),
   ("item_name", "name"), ("stock_name", "name"), ("product_name", "name"),
   ("emp_id", "id_number"), ("employee_id", "id_number"), ("staff_id", "id_number"),
   ("joining_date", "date_of_joining"), ("doj", "date_of_joining"),
   ("start_date", "date_of_joining"),
   ("salary_amount", "amount"), ("pay_amount", "amount"), ("wage_amount", "amount"),
   ("stock_balance", "closing_balance"), ("inventory_balance", "closing_balance"),
   ("current_balance", "closing_balance"),
   ("voucher_date", "date"), ("transaction_date", "date"), ("entry_date", "date"),
   ("gst_number", "gstn"), ("pan_number", "it_pan"),
   ("mobile_number", "mobile"), ("phone_number", "mobile")]

/-- `self.aggregation_keywords`, in dictionary insertion order. -/
def aggregationKeywords : List (String × List String) :=
  [("count", ["count", "how many", "number of", "total count"]),
   ("sum", ["sum", "total", "aggregate", "add up", "total amount"]),
   ("avg", ["average", "avg", "mean"]),
   ("max", ["maximum", "max", "highest", "largest", "top"]),
   ("min", ["minimum", "min", "lowest", "smallest", "bottom"])]

/-- `self.condition_keywords`, in dictionary insertion order. -/
def conditionKeywords : List (String × List String) :=
  [("=", ["is", "equals", "equal to", "=", "named", "called"]),
   (">", ["greater than", "more than", "over", "above", "exceeds", ">"]),
   ("<", ["less than", "below", "under", "fewer than", "<"]),
   (">=", ["at least", "greater than or equal", "minimum", ">="]),
   ("<=", ["at most", "less than or equal", "maximum", "<="]),
   ("!=", ["not equal", "not", "different from", "other than", "!="]),
   ("LIKE", ["contains", "includes", "has", "with", "like", "similar to"]),
   ("IN", ["in", "among", "one of", "any of"]),
   ("BETWEEN", ["between", "from ... to", "range", "within"])]

/-- The keys of `self.voucher_type_filters`, in dictionary insertion order
(the dictionary values are never read by `_extract_conditions`, which uses
`voucher_type.title()` instead). -/
def voucherTypeKeys : List String :=
  ["sales", "purchase", "payment", "receipt", "journal", "payroll"]

/-- Python `str.title()` for a single lowercase word (upper-case the first
character), as applied to the voucher-type keys. -/
def pyTitle (s : String) : String :=
  match s.data with
  | [] => ""
  | c :: cs => ⟨asciiUpper c :: cs⟩

/-- `self.gst_patterns`, in dictionary insertion order. -/
def gstPatterns : List (String × String) :=
  [("with gst", "gstn IS NOT NULL"), ("without gst", "gstn IS NULL"),
   ("gst registered", "gstn IS NOT NULL"), ("non gst", "gstn IS NULL")]

/-! ### Regex scanners for query_parser.py

The regular expressions of query_parser.py are hand-compiled to scanners over
`List Char`.  Each scanner follows Python `re` semantics (leftmost match,
greedy/lazy quantifier backtracking).  Quantified sub-patterns in the source
only ever quantify single-character classes, so greedy runs that are followed
by a character from a disjoint class are forced to be maximal; the comments
record where this is used.  `re.IGNORECASE` is immaterial inside `parse`,
which lower-cases the query before every extraction stage. -/

/-- `\w` (ASCII): letters, digits, underscore. -/
def wordChar (c : Char) : Bool := c.isAlphanum || c == '_'

/-- Quote characters excluded by the `[^'\"]` class. -/
def isQuoteChar (c : Char) : Bool := c == squote || c == dquote

/-- The terminator `(?:\s|$|,)` of the condition pattern: consume one
whitespace, succeed at end of input, or consume one comma. -/
def condTerm : List Char → Option (List Char)
  | [] => some []
  | c :: rest =>
    if isPySpace c then some rest
    else if c == ',' then some rest
    else none

/-- Match the closing back-reference `\2` (the opening quote, or nothing)
followed by the terminator. -/
def condClose (g2 : Option Char) (l : List Char) : Option (List Char) :=
  match g2 with
  | some q =>
    match l with
    | c :: rest => if c == q then condTerm rest else none
    | [] => none
  | none => condTerm l

/-- The lazy value group `([^'\"]+?)` of the condition pattern: extend the
captured value one character at a time (shortest first), attempting the
closing back-reference and terminator after each character. -/
def condValue (g2 : Option Char) (acc : List Char) : List Char → Option (List Char × List Char)
  | [] => none
  | c :: rest =>
    if isQuoteChar c then none
    else
      let acc' := acc ++ [c]
      match condClose g2 rest with
      | some remaining => some (acc', remaining)
      | none => condValue g2 acc' rest

/-- The optional-quote group `(['\"]?)` (greedy: a quote is preferred) followed
by the value group.  When the next character is a quote and the quoted
alternative fails, the empty alternative fails as well, because `[^'\"]`
cannot match the quote character. -/
def condQuoteValue (l : List Char) : Option (List Char × List Char) :=
  match l with
  | c :: rest =>
    if isQuoteChar c then condValue (some c) [] rest
    else condValue none [] l
  | [] => none

/-- The second `\s+` of the condition pattern, with backtracking: try the
maximal whitespace run first, then successively shorter non-empty runs
(the value class `[^'\"]` admits whitespace, so shorter runs can succeed). -/
def condWsLoop (rest3 : List Char) : Nat → Option (List Char × List Char)
  | 0 => none
  | w + 1 =>
    match condQuoteValue (rest3.drop (w + 1)) with
    | some r => some r
    | none => condWsLoop rest3 w

/-- Attempt the condition pattern
`(\b\w+\b)\s+KEYWORD\s+(['\"]?)([^'\"]+?)\2(?:\s|$|,)` at the current
position (the caller has established the leading word boundary).  The leading
`\w+` and the first `\s+` are forced to their maximal runs: the trailing `\b`
excludes a shorter word run, and the keyword never begins with whitespace.
Returns (field, value, rest-after-match). -/
def tryCondAt (kw : List Char) (l : List Char) : Option (String × String × List Char) :=
  let run := l.takeWhile wordChar
  if run.isEmpty then none
  else
    let rest1 := l.drop run.length
    let ws1 := rest1.takeWhile isPySpace
    if ws1.isEmpty then none
    else
      let rest2 := rest1.drop ws1.length
      if isPre kw rest2 then
        let rest3 := rest2.drop kw.length
        match condWsLoop rest3 (rest3.takeWhile isPySpace).length with
        | some (value, remaining) => some (⟨run⟩, ⟨value⟩, remaining)
        | none => none
      else none

/-- `re.finditer` of the condition pattern over the query: scan left to right
(a word boundary is required at the match start), and continue after the end
of each match.  `prevIsWord` tracks whether the character before the current
position is a word character; after a successful match the remainder, if
non-empty, is preceded by the whitespace or comma the terminator consumed. -/
def scanCondAux (kw : List Char) : Nat → Bool → List Char → List (String × String)
  | 0, _, _ => []
  | _, _, [] => []
  | fuel + 1, prevIsWord, c :: cs =>
    if wordChar c && !prevIsWord then
      match tryCondAt kw (c :: cs) with
      | some (field, value, remaining) =>
        (field, value) :: scanCondAux kw fuel false remaining
      | none => scanCondAux kw fuel (wordChar c) cs
    else scanCondAux kw fuel (wordChar c) cs

/-- All (field, value) condition captures for one keyword. -/
def scanCond (kw : String) (q : String) : List (String × String) :=
  scanCondAux kw.data (q.data.length + 1) false q.data

/-- Generic `re.finditer` driver: `m` attempts a match at the current position
and returns the matched text (`group(0)`) and the rest of the input after the
match; scanning resumes after each (always non-empty) match. -/
def scanAll (m : List Char → Option (String × List Char)) :
    Nat → List Char → List String
  | 0, _ => []
  | _, [] => []
  | fuel + 1, c :: cs =>
    match m (c :: cs) with
    | some (g0, rem) => g0 :: scanAll m fuel rem
    | none => scanAll m fuel cs

/-- Two digits at the head of the input. -/
def twoDigitsAt : List Char → Option (String × List Char)
  | a :: b :: rest =>
    if a.isDigit && b.isDigit then some (⟨[a, b]⟩, rest) else none
  | _ => none

/-- Matcher for `r'in (\d{4})'` at the current position. -/
def matchInYear (l : List Char) : Option (String × List Char) :=
  if isPre "in ".data l then
    match fourDigitsAt (l.drop 3) with
    | some (ds, rest) => some ("in " ++ ds, rest)
    | none => none
  else none

/-- Matcher for `r'in (january|...|december) (\d{4})'` at the current
position (the separator in the pattern is a literal space). -/
def matchInMonthYear (l : List Char) : Option (String × List Char) :=
  if isPre "in ".data l then
    match monthAt (l.drop 3) with
    | some (mname, _) =>
      let afterMonth := (l.drop 3).drop mname.length
      match afterMonth with
      | c :: rest =>
        if c == ' ' then
          match fourDigitsAt rest with
          | some (ds, rest2) => some ("in " ++ mname ++ " " ++ ds, rest2)
          | none => none
        else none
      | [] => none
    | none => none
  else none

/-- Matcher for `r'in the last (\d+) (day|month|year)s?'` at the current
position.  The digit run is forced maximal by the literal space after it;
the trailing `s?` is greedy. -/
def matchRelativeDate (l : List Char) : Option (String × List Char) :=
  if isPre "in the last ".data l then
    let rest := l.drop 12
    let run := rest.takeWhile Char.isDigit
    if run.isEmpty then none
    else
      match rest.drop run.length with
      | c :: rest2 =>
        if c == ' ' then
          let unit :=
            if isPre "day".data rest2 then some "day"
            else if isPre "month".data rest2 then some "month"
            else if isPre "year".data rest2 then some "year"
            else none
          match unit with
          | some u =>
            let rest3 := rest2.drop u.length
            let hasS := isPre "s".data rest3
            let g0 := "in the last " ++ (⟨run⟩ : String) ++ " " ++ u ++
              (if hasS then "s" else "")
            some (g0, if hasS then rest3.drop 1 else rest3)
          | none => none
        else none
      | [] => none
  else none

/-- Matcher for a `\d{4}-\d{2}-\d{2}` date at the current position. -/
def isoDateAt (l : List Char) : Option (String × List Char) :=
  match fourDigitsAt l with
  | some (y, rest) =>
    match rest with
    | c :: rest1 =>
      if c == '-' then
        match twoDigitsAt rest1 with
        | some (m, rest2) =>
          match rest2 with
          | c2 :: rest3 =>
            if c2 == '-' then
              match twoDigitsAt rest3 with
              | some (d, rest4) => some (y ++ "-" ++ m ++ "-" ++ d, rest4)
              | none => none
            else none
          | [] => none
        | none => none
      else none
    | [] => none
  | none => none

/-- Matcher for `r'since (\d{4}-\d{2}-\d{2})'` (and, with other literals,
`before`/`on`). -/
def matchLitIsoDate (lit : String) (l : List Char) : Option (String × List Char) :=
  if isPre lit.data l then
    match isoDateAt (l.drop lit.data.length) with
    | some (ds, rest) => some (lit ++ ds, rest)
    | none => none
  else none

/-- Matcher for a literal pattern (e.g. `r'today'`). -/
def matchLit (lit : String) (l : List Char) : Option (String × List Char) :=
  if isPre lit.data l then some (lit, l.drop lit.data.length) else none

/-- Matcher for `r'this (month|year)'` / `r'last (month|year)'`. -/
def matchPeriod (lit : String) (l : List Char) : Option (String × List Char) :=
  if isPre lit.data l then
    let rest := l.drop lit.data.length
    if isPre "month".data rest then some (lit ++ "month", rest.drop 5)
    else if isPre "year".data rest then some (lit ++ "year", rest.drop 4)
    else none
  else none

/-- `self.date_patterns`: for each pattern in order, the `group(0)` texts of
all its matches, tagged with the pattern's condition type. -/
def dateMatches (q : String) : List (String × String) :=
  let n := q.data.length + 1
  (scanAll matchInYear n q.data).map (fun g => (g, "year")) ++
  (scanAll matchInMonthYear n q.data).map (fun g => (g, "month_year")) ++
  (scanAll matchRelativeDate n q.data).map (fun g => (g, "relative_date")) ++
  (scanAll (matchLitIsoDate "since ") n q.data).map (fun g => (g, "since_date")) ++
  (scanAll (matchLitIsoDate "before ") n q.data).map (fun g => (g, "before_date")) ++
  (scanAll (matchLitIsoDate "on ") n q.data).map (fun g => (g, "on_date")) ++
  (scanAll (matchLit "today") n q.data).map (fun g => (g, "today")) ++
  (scanAll (matchPeriod "this ") n q.data).map (fun g => (g, "current_period")) ++
  (scanAll (matchPeriod "last ") n q.data).map (fun g => (g, "last_period"))

/-- `re.search(rf"{keyword}\s+(\w+)", query)`: leftmost occurrence of the
keyword followed by whitespace and a word; returns the captured word.  The
whitespace and word runs are forced maximal (word characters are not
whitespace, and nothing follows the word group). -/
def searchKwWord (kw : List Char) : List Char → Option String
  | [] => none
  | c :: cs =>
    ((if isPre kw (c :: cs) then
        let rest := (c :: cs).drop kw.length
        let ws := rest.takeWhile isPySpace
        if ws.isEmpty then none
        else
          let run := (rest.drop ws.length).takeWhile wordChar
          if run.isEmpty then none else some (⟨run⟩ : String)
      else none : Option String)).orElse (fun _ => searchKwWord kw cs)

/-- `re.search(rf'{lit}(\d+)', query)` for a literal such as `"top "`: leftmost
occurrence of the literal followed by at least one digit; the digit run is
greedy and maximal.  Used by `_extract_limit`. -/
def searchLitNum (lit : List Char) : List Char → Option (List Char)
  | [] => none
  | c :: cs =>
    ((if isPre lit (c :: cs) then
        let run := ((c :: cs).drop lit.length).takeWhile Char.isDigit
        if run.isEmpty then none else some run
      else none : Option (List Char))).orElse (fun _ => searchLitNum lit cs)

/-- `re.search(r'(\d+) records?', query)`: leftmost digit run followed by
`" record"` (the final `s?` is unconstrained).  The run is forced maximal by
the literal space after it. -/
def searchNumRecords : List Char → Option (List Char)
  | [] => none
  | c :: cs =>
    ((if c.isDigit then
        let run := (c :: cs).takeWhile Char.isDigit
        if isPre " record".data ((c :: cs).drop run.length) then some run else none
      else none : Option (List Char))).orElse (fun _ => searchNumRecords cs)

/-! ### NaturalLanguageParser (query_parser.py): extraction stages -/

/-- `NaturalLanguageParser._detect_action`. -/
def detectAction (q : String) : String :=
  (actionKeywordTable.findSome? (fun ak =>
    if ak.2.any (fun kw => strIn kw q) then some ak.1 else none)).getD "SELECT"

/-- `NaturalLanguageParser._extract_tables`. -/
def extractTables (q : String) (schema : Schema) : List String :=
  let t1 := tableAliases.foldl (fun acc al =>
    if strIn al.1 q && schemaHas schema al.2 && !acc.contains al.2 then acc ++ [al.2]
    else acc) []
  let t2 := schema.foldl (fun acc td =>
    if strIn (pyLower td.name) q && !acc.contains td.name then acc ++ [td.name]
    else acc) t1
  if t2 ≠ [] then t2
  else if ["salary", "payroll", "employee", "staff"].any (fun w => strIn w q) then
    (if schemaHas schema "mst_employee" then ["mst_employee"] else []) ++
      (if schemaHas schema "trn_payhead" then ["trn_payhead"] else [])
  else if ["voucher", "transaction", "sales", "purchase"].any (fun w => strIn w q) then
    if schemaHas schema "trn_voucher" then ["trn_voucher"] else []
  else if ["ledger", "account", "customer", "supplier"].any (fun w => strIn w q) then
    if schemaHas schema "mst_ledger" then ["mst_ledger"] else []
  else if ["stock", "item", "inventory", "product"].any (fun w => strIn w q) then
    if schemaHas schema "mst_stock_item" then ["mst_stock_item"] else []
  else []

/-- `NaturalLanguageParser._extract_columns`. -/
def extractColumns (q : String) (schema : Schema) (tables : List String) : List String :=
  if ["all", "everything", "all columns", "*", "details"].any (fun w => strIn w q) then
    ["*"]
  else
    let c1 := columnAliases.foldl (fun acc al =>
      if strIn al.1 q then
        tables.foldl (fun acc2 t =>
          match schemaFind schema t with
          | some td =>
            td.columns.foldl (fun acc3 ci =>
              if ci.name == al.2 && !acc3.contains al.2 then acc3 ++ [al.2] else acc3)
              acc2
          | none => acc2) acc
      else acc) []
    let c2 := tables.foldl (fun acc t =>
      match schemaFind schema t with
      | some td =>
        td.columns.foldl (fun acc2 ci =>
          if strIn (pyLower ci.name) q && !acc2.contains ci.name then acc2 ++ [ci.name]
          else acc2) acc
      | none => acc) c1
    let c3 :=
      if c2 = [] then
        if ["summary", "report"].any (fun w => strIn w q) then
          if tables.contains "mst_employee" then ["name", "designation", "location"]
          else if tables.contains "mst_ledger" then ["name", "closing_balance"]
          else if tables.contains "mst_stock_item" then
            ["name", "closing_balance", "closing_value"]
          else if tables.contains "trn_voucher" then
            ["date", "voucher_type", "voucher_number", "party_name"]
          else []
        else []
      else c2
    if c3 = [] && tables ≠ [] then ["*"] else c3

/-- `NaturalLanguageParser._resolve_field_alias`. -/
def resolveFieldAlias (field : String) (tables : List String) (schema : Schema) :
    Option String :=
  let direct : Option String := tables.findSome? (fun t =>
    match schemaFind schema t with
    | some td =>
      td.columns.findSome? (fun ci =>
        if pyLower ci.name == pyLower field then some ci.name else none)
    | none => none)
  match (columnAliases.find? (fun al => al.1 == pyLower field)).map (·.2) with
  | some columnName =>
    let found := tables.any (fun t =>
      match schemaFind schema t with
      | some td => td.columns.any (fun ci => ci.name == columnName)
      | none => false)
    if found then some columnName else direct
  | none => direct

/-- `NaturalLanguageParser._find_date_columns`. -/
def findDateColumns (tables : List String) (schema : Schema) : List String :=
  tables.foldl (fun acc t =>
    match schemaFind schema t with
    | some td =>
      acc ++ td.columns.filterMap (fun ci =>
        if ["date", "datetime", "timestamp"].any (fun dt => strIn dt (pyLower ci.ctype))
        then some ci.name else none)
    | none => acc) []

/-- `NaturalLanguageParser._extract_conditions`. -/
def extractConditions (q : String) (schema : Schema) (tables : List String) :
    List Cond :=
  let standard := conditionKeywords.foldl (fun acc opk =>
    opk.2.foldl (fun acc2 kw =>
      acc2 ++ (scanCond kw q).filterMap (fun fv =>
        match resolveFieldAlias fv.1 tables schema with
        | some rf => some ⟨rf, opk.1, pyStrip fv.2, ""⟩
        | none => none)) acc) []
  let gst := gstPatterns.filterMap (fun pc =>
    if strIn pc.1 q then some (⟨"gstn", "raw_condition", pc.2, ""⟩ : Cond) else none)
  let voucher := voucherTypeKeys.filterMap (fun vt =>
    if strIn vt q then some (⟨"voucher_type", "=", pyTitle vt, ""⟩ : Cond) else none)
  let dates := (dateMatches q).filterMap (fun gd =>
    match findDateColumns tables schema with
    | dc :: _ => some (⟨dc, "date_condition", gd.1, gd.2⟩ : Cond)
    | [] => none)
  standard ++ gst ++ voucher ++ dates

/-- `NaturalLanguageParser._extract_tally_filters`. -/
def extractTallyFilters (q : String) : List Cond :=
  let balance : List Cond :=
    if strIn "positive balance" q || strIn "credit balance" q then
      [⟨"closing_balance", ">", "0", ""⟩]
    else if strIn "negative balance" q || strIn "debit balance" q then
      [⟨"closing_balance", "<", "0", ""⟩]
    else []
  let stock : List Cond :=
    if strIn "out of stock" q || strIn "zero stock" q then
      [⟨"closing_balance", "<=", "0", ""⟩]
    else if strIn "low stock" q then
      [⟨"closing_balance", "<", "10", ""⟩]
    else []
  let employee : List Cond :=
    if strIn "active employee" q || strIn "current employee" q then
      [⟨"date_of_release", "IS NULL", "", ""⟩]
    else if strIn "ex employee" q || strIn "former employee" q then
      [⟨"date_of_release", "IS NOT NULL", "", ""⟩]
    else []
  balance ++ stock ++ employee

/-- The hard-coded `tally_joins` dictionary of
`NaturalLanguageParser._extract_joins`. -/
def tallyJoins : List ((String × String) × String) :=
  [(("trn_voucher", "trn_accounting"), "trn_voucher.guid = trn_accounting.guid"),
   (("trn_voucher", "trn_inventory"), "trn_voucher.guid = trn_inventory.guid"),
   (("trn_voucher", "trn_payhead"), "trn_voucher.guid = trn_payhead.guid"),
   (("trn_voucher", "trn_attendance"), "trn_voucher.guid = trn_attendance.guid"),
   (("mst_employee", "trn_payhead"), "mst_employee.name = trn_payhead.employee_name"),
   (("mst_employee", "trn_attendance"), "mst_employee.name = trn_attendance.employee_name"),
   (("mst_ledger", "trn_accounting"), "mst_ledger.name = trn_accounting.ledger"),
   (("mst_stock_item", "trn_inventory"), "mst_stock_item.name = trn_inventory.item")]

/-- Dictionary lookup in `tally_joins`. -/
def tallyJoinFind (p : String × String) : Option String :=
  (tallyJoins.find? (fun e => e.1 == p)).map (·.2)

/-- The pair loop of `_extract_joins` (`for i, table1 ...: for table2 in
tables[i+1:]`). -/
def pairJoins : List String → List Join
  | [] => []
  | t1 :: rest =>
    rest.filterMap (fun t2 =>
      match tallyJoinFind (t1, t2) with
      | some cond => some (⟨some "INNER", t1, t2, cond⟩ : Join)
      | none =>
        match tallyJoinFind (t2, t1) with
        | some cond => some (⟨some "INNER", t2, t1, cond⟩ : Join)
        | none => none) ++ pairJoins rest

/-- `NaturalLanguageParser._extract_joins`.  The `query` and `schema` arguments
are unused by the source body (the join table is hard-coded). -/
def extractJoins (tables : List String) : List Join :=
  if tables.length > 1 then pairJoins tables else []

/-- The `amount_columns` list of `_extract_aggregations`. -/
def amountColumns : List String :=
  ["amount", "closing_balance", "closing_value", "opening_balance"]

/-- `NaturalLanguageParser._extract_aggregations`. -/
def extractAggregations (q : String) (columns : List String) : List Agg :=
  aggregationKeywords.foldl (fun acc fk =>
    fk.2.foldl (fun acc2 kw =>
      if strIn kw q then
        if fk.1 == "count" then acc2 ++ [⟨"COUNT", "*"⟩]
        else
          match columns.find? (fun col => amountColumns.contains col) with
          | some col => acc2 ++ [⟨pyUpper fk.1, col⟩]
          | none => acc2 ++ [⟨pyUpper fk.1, "amount"⟩]
      else acc2) acc) []

/-- `NaturalLanguageParser._extract_group_by`. -/
def extractGroupBy (q : String) (columns : List String) : List String :=
  let part1 : List String :=
    if strIn "by employee" q || strIn "per employee" q then ["employee_name"]
    else if strIn "by ledger" q || strIn "per ledger" q then ["ledger"]
    else if strIn "by item" q || strIn "per item" q then ["item"]
    else if strIn "by voucher type" q then ["voucher_type"]
    else if strIn "by month" q then
      ["strftime(" ++ sq ++ "%Y-%m" ++ sq ++ ", date)"]
    else if strIn "by year" q then
      ["strftime(" ++ sq ++ "%Y" ++ sq ++ ", date)"]
    else []
  ["by", "per", "for each", "group by"].foldl (fun acc kw =>
    if strIn kw q then
      match searchKwWord kw.data q.data with
      | some field =>
        if columns.contains field || field == "*" then acc ++ [field] else acc
      | none => acc
    else acc) part1

/-- `NaturalLanguageParser._extract_order_by`. -/
def extractOrderBy (q : String) : List OrderItem :=
  if strIn "highest amount" q || strIn "top amount" q then
    [⟨"amount", some "DESC"⟩]
  else if strIn "lowest amount" q || strIn "bottom amount" q then
    [⟨"amount", some "ASC"⟩]
  else if strIn "alphabetical" q || strIn "by name" q then
    [⟨"name", some "ASC"⟩]
  else if strIn "latest" q || strIn "recent" q then
    [⟨"date", some "DESC"⟩]
  else if strIn "oldest" q then
    [⟨"date", some "ASC"⟩]
  else []

/-- `NaturalLanguageParser._extract_limit`: the six limit patterns in order
(`re.IGNORECASE` is modelled by lower-casing the query, which fixes only the
literal parts; the digit class is case-independent). -/
def extractLimit (q : String) : Option Int :=
  let ql := (pyLower q).data
  match searchLitNum "top ".data ql with
  | some run => some (Int.ofNat (digitsToNat run))
  | none =>
  match searchLitNum "first ".data ql with
  | some run => some (Int.ofNat (digitsToNat run))
  | none =>
  match searchLitNum "limit ".data ql with
  | some run => some (Int.ofNat (digitsToNat run))
  | none =>
  match searchLitNum "up to ".data ql with
  | some run => some (Int.ofNat (digitsToNat run))
  | none =>
  match searchLitNum "maximum ".data ql with
  | some run => some (Int.ofNat (digitsToNat run))
  | none =>
  match searchNumRecords ql with
  | some run => some (Int.ofNat (digitsToNat run))
  | none => none

/-- `NaturalLanguageParser._parse_select_query`. -/
def parseSelectQuery (q : String) (schema : Schema) (uf : UserFilters) : ParsedQuery :=
  let tables := extractTables q schema
  let columns := extractColumns q schema tables
  let conditions := extractConditions q schema tables
  let joins := extractJoins tables
  let aggregations := extractAggregations q columns
  let group_by := extractGroupBy q columns
  let order_by := extractOrderBy q
  let limit := extractLimit q
  { action := "SELECT", tables := tables, columns := columns
    conditions := conditions ++ extractTallyFilters q
    joins := joins, aggregations := aggregations, group_by := group_by
    order_by := order_by, limit := limit, user_filters := uf }

/-- `NaturalLanguageParser._parse_insert_query`. -/
def parseInsertQuery (q : String) (schema : Schema) (uf : UserFilters) : ParsedQuery :=
  let tables := extractTables q schema
  { action := "INSERT", tables := tables.take 1, columns := []
    conditions := [], joins := [], aggregations := [], group_by := []
    order_by := [], limit := none, user_filters := uf }

/-- `NaturalLanguageParser._parse_update_query`. -/
def parseUpdateQuery (q : String) (schema : Schema) (uf : UserFilters) : ParsedQuery :=
  let tables := extractTables q schema
  let conditions := extractConditions q schema tables
  { action := "UPDATE", tables := tables.take 1, columns := []
    conditions := conditions, joins := [], aggregations := [], group_by := []
    order_by := [], limit := none, user_filters := uf }

/-- `NaturalLanguageParser._parse_delete_query`. -/
def parseDeleteQuery (q : String) (schema : Schema) (uf : UserFilters) : ParsedQuery :=
  let tables := extractTables q schema
  let conditions := extractConditions q schema tables
  { action := "DELETE", tables := tables.take 1, columns := []
    conditions := conditions, joins := [], aggregations := [], group_by := []
    order_by := [], limit := none, user_filters := uf }

/-- `NaturalLanguageParser.parse` (query_parser.py): lower-case and strip the
query, detect the action, set the mandatory user filters, and dispatch. -/
def parse (query : String) (schema : Schema) (user_id company_name : String) :
    ParsedQuery :=
  let ql := pyStrip (pyLower query)
  let action := detectAction ql
  let uf : UserFilters := ⟨user_id, company_name⟩
  if action == "SELECT" then parseSelectQuery ql schema uf
  else if action == "INSERT" then parseInsertQuery ql schema uf
  else if action == "UPDATE" then parseUpdateQuery ql schema uf
  else if action == "DELETE" then parseDeleteQuery ql schema uf
  else parseSelectQuery ql schema uf

/-! ### Declared Tally schema (schema_manager.py, `load_tally_schema`)

Only the table names and declared relationship strings are embedded: the
extraction functions relevant to the join claims read table names and
relationships, never the column lists (which are therefore left empty here). -/

/-- The tables of `load_tally_schema`, in insertion order, each with its
declared `relationships` list. -/
def tallySchema : Schema :=
  [⟨"config", [], []⟩,
   ⟨"mst_group", [], ["mst_ledger.parent = mst_group.name"]⟩,
   ⟨"mst_ledger", [],
     ["trn_accounting.ledger = mst_ledger.name",
      "trn_cost_centre.ledger = mst_ledger.name",
      "trn_bill.ledger = mst_ledger.name"]⟩,
   ⟨"mst_vouchertype", [], ["trn_voucher.voucher_type = mst_vouchertype.name"]⟩,
   ⟨"mst_stock_item", [],
     ["trn_inventory.item = mst_stock_item.name",
      "trn_batch.item = mst_stock_item.name"]⟩,
   ⟨"mst_employee", [],
     ["trn_employee.employee_name = mst_employee.name",
      "trn_payhead.employee_name = mst_employee.name",
      "trn_attendance.employee_name = mst_employee.name"]⟩,
   ⟨"trn_voucher", [],
     ["trn_accounting.guid = trn_voucher.guid",
      "trn_inventory.guid = trn_voucher.guid",
      "trn_cost_centre.guid = trn_voucher.guid"]⟩,
   ⟨"trn_accounting", [],
     ["trn_accounting.guid = trn_voucher.guid",
      "trn_accounting.ledger = mst_ledger.name"]⟩,
   ⟨"trn_inventory", [],
     ["trn_inventory.guid = trn_voucher.guid",
      "trn_inventory.item = mst_stock_item.name"]⟩,
   ⟨"trn_payhead", [],
     ["trn_payhead.guid = trn_voucher.guid",
      "trn_payhead.employee_name = mst_employee.name"]⟩,
   ⟨"trn_attendance", [],
     ["trn_attendance.guid = trn_voucher.guid",
      "trn_attendance.employee_name = mst_employee.name"]⟩]

/-- The schema's declared relationship string for the
(mst_employee, trn_payhead) pair, as written in both tables' declarations. -/
def declaredEmployeePayhead : String := "trn_payhead.employee_name = mst_employee.name"

/-! ### NaturalLanguageParser (nl_parser.py): confidence -/

/-- A Python value as produced by nl_parser's `_convert_value`:
int, float, bool or string. -/
inductive PyVal where
  | pint (n : Int)
  | pfloat (q : Rat)
  | pbool (b : Bool)
  | pstr (s : String)
deriving DecidableEq

/-- A filter dictionary of nl_parser's `_parse_filters` (`BETWEEN`, `IN`, or a
single-valued filter type). -/
inductive NlFilter where
  | between (column : String) (value1 value2 : PyVal)
  | inList (column : String) (values : List String)
  | cmp (ftype : String) (column : String) (value : PyVal)
deriving DecidableEq

/-- A join dictionary of nl_parser's `_generate_joins`. -/
structure NlJoin where
  jtype : String
  table1 : String
  table2 : String
  condition : String
deriving DecidableEq

/-- The `ParsedQuery` dataclass of nl_parser.py. -/
structure NlParsedQuery where
  action : String
  tables : List String
  columns : List String
  filters : List NlFilter
  joins : List NlJoin
  groupby : List String
  orderby : List (String × String)
  having : List String
  limit : Option Int
  aggregations : List Agg
  confidence : Rat
  assumptions : List String
  original_query : String
deriving DecidableEq

/-- `NaturalLanguageParser._calculate_confidence` (nl_parser.py): a base of
0.3 plus fixed bonuses per resolved slot, capped at 1.0. -/
def calcConfidence (parsed : NlParsedQuery) (query : String) : Rat :=
  let c1 : Rat := 0 + 3 / 10
  let c2 := if parsed.tables ≠ [] then c1 + 2 / 10 else c1
  let c3 := if parsed.columns ≠ [] then c2 + 2 / 10 else c2
  let c4 :=
    if parsed.action ≠ "SELECT" ||
        ["show", "list", "get"].any (fun kw => strIn kw query) then c3 + 1 / 10
    else c3
  let c5 := if parsed.filters ≠ [] then c4 + 1 / 10 else c4
  let c6 := if parsed.tables.length > 1 && parsed.joins ≠ [] then c5 + 1 / 10 else c5
  min c6 1

/-! ### FeedbackManager (feedback_manager.py) -/

/-- A `patterns[phrase]` entry: `success_count`, `fail_count`, and the
optional `avg_ai_score` key read via `.get('avg_ai_score', 0)`. -/
structure PatternEntry where
  success_count : Nat
  fail_count : Nat
  avg_ai_score : Option Rat
deriving DecidableEq

/-- An `ai_learning_patterns[phrase]` entry: the optional `avg_ai_score` key
read via `.get('avg_ai_score', 0.5)`. -/
structure AiPatternEntry where
  avg_ai_score : Option Rat
deriving DecidableEq

/-- The stored feedback data consulted by `get_confidence_adjustment`. -/
structure FeedbackData where
  patterns : List (String × PatternEntry)
  ai_learning_patterns : List (String × AiPatternEntry)
deriving DecidableEq

/-- Dictionary lookup in a phrase-keyed association list. -/
def alistFind {α : Type} (l : List (String × α)) (k : String) : Option α :=
  (l.find? (fun e => e.1 == k)).map (·.2)

/-- The stop-word set of `_extract_key_phrases`. -/
def stopWords : List String :=
  ["the", "a", "an", "and", "or", "but", "in", "on", "at", "to", "for", "of",
   "with", "by"]

/-- Python `str.split()` with no argument: split on whitespace runs,
discarding empty pieces. -/
def wsSplit : List Char → List (List Char)
  | [] => []
  | c :: cs =>
    if isPySpace c then wsSplit cs
    else
      let run := cs.takeWhile (fun x => !isPySpace x)
      (c :: run) :: wsSplit (cs.drop run.length)
termination_by l => l.length
decreasing_by
  all_goals simp only [List.length_drop, List.length_cons]
  all_goals omega

/-- `FeedbackManager._extract_key_phrases`: significant lower-cased words plus
their bigrams. -/
def extractKeyPhrases (q : String) : List String :=
  let words := (wsSplit (pyLower q).data).map (fun l => (⟨l⟩ : String))
  let words := words.filter (fun w => !stopWords.contains w)
  words ++ (words.zip (words.drop 1)).map (fun ab => ab.1 ++ " " ++ ab.2)

/-- `FeedbackManager.get_confidence_adjustment`: multiplier from user-feedback
patterns and AI learning patterns, averaged and clamped to [0.3, 1.8].
(The float constants of the source are modelled as the rationals they denote;
the final clamp is `min(max(final_adjustment, 0.3), 1.8)` either way.) -/
def getConfidenceAdjustment (fd : FeedbackData) (naturalQuery : String) : Rat :=
  let keyPhrases := extractKeyPhrases naturalQuery
  let totalAdjustment := keyPhrases.foldl (fun t phrase =>
    match alistFind fd.patterns phrase with
    | some pat =>
      let successRate : Rat :=
        (pat.success_count : Rat) /
          ((pat.success_count : Rat) + (pat.fail_count : Rat) + (1 : Rat))
      let t1 :=
        if successRate > 8 / 10 then t * (11 / 10)
        else if successRate < 5 / 10 then t * (8 / 10)
        else t
      if pat.avg_ai_score.getD 0 > 0 then
        t1 * (8 / 10 + 4 / 10 * pat.avg_ai_score.getD 0)
      else t1
    | none => t) (1 : Rat)
  let aiAdjustment := keyPhrases.foldl (fun a phrase =>
    match alistFind fd.ai_learning_patterns phrase with
    | some aiPat =>
      let avg := aiPat.avg_ai_score.getD (5 / 10)
      if avg > 8 / 10 then a * (23 / 20)
      else if avg < 4 / 10 then a * (7 / 10)
      else a
    | none => a) (1 : Rat)
  let finalAdjustment := (totalAdjustment + aiAdjustment) / 2
  min (max finalAdjustment (3 / 10)) (18 / 10)

/-! ### Predicates and concrete inputs used by the theorems -/

/-- Every string in the list is free of the placeholder character. -/
def AllZ (l : List String) : Prop := ∀ x ∈ l, countQ x = 0

/-- A condition dictionary whose strings are free of the placeholder
character. -/
def CondOk (c : Cond) : Prop :=
  countQ c.field = 0 ∧ countQ c.op = 0 ∧ countQ c.value = 0

/-- A parsed query none of whose string slots contains the placeholder
character `?` (every slot the clause builders inline into SQL text). -/
def NoQM (p : ParsedQuery) : Prop :=
  AllZ p.tables ∧ AllZ p.columns ∧ (∀ c ∈ p.conditions, CondOk c) ∧
  (∀ j ∈ p.joins, countQ (j.jtype.getD "INNER") = 0 ∧ countQ j.table2 = 0 ∧
    countQ j.onCond = 0) ∧
  (∀ a ∈ p.aggregations, countQ a.func = 0 ∧ countQ a.column = 0) ∧
  AllZ p.group_by ∧
  (∀ o ∈ p.order_by, countQ o.column = 0 ∧ countQ (o.direction.getD "ASC") = 0)

/-- The default identity pair of `parse`. -/
def demoFilters : UserFilters := ⟨"demo_user", "Demo Company Ltd"⟩

/-- A DELETE parsed query with no resolved table. -/
def pqDeleteNoTables : ParsedQuery :=
  ⟨"DELETE", [], [], [], [], [], [], [], none, demoFilters⟩

/-- A plain SELECT parsed query with one numeric filter. -/
def pqSelectBasic : ParsedQuery :=
  ⟨"SELECT", ["mst_employee"], ["name"], [⟨"salary", ">", "1000", ""⟩],
    [], [], [], [], none, demoFilters⟩

/-- A SELECT parsed query exercising LIKE and IN filters. -/
def pqSelectFilters : ParsedQuery :=
  ⟨"SELECT", ["mst_ledger"], ["name", "closing_balance"],
    [⟨"name", "LIKE", "traders", ""⟩, ⟨"parent", "IN", "a, b, c", ""⟩],
    [], [], [], [], none, demoFilters⟩

/-- An INSERT parsed query whose table is not in the schema. -/
def pqInsertUnknown : ParsedQuery :=
  ⟨"INSERT", ["t"], [], [], [], [], [], [], none, demoFilters⟩

/-! ## Theorems

General lemmas about the string helpers, followed by the claim theorems. -/

theorem str_eq_of_data {a b : String} (h : a.data = b.data) : a = b := by
  cases a
  cases b
  exact congrArg String.mk h

theorem data_append (s t : String) : (s ++ t).data = s.data ++ t.data := rfl

theorem countQ_append (s t : String) : countQ (s ++ t) = countQ s + countQ t := by
  simp [countQ, data_append, List.count_append]

theorem append_ne_empty {s t : String} (h : t ≠ "") : s ++ t ≠ "" := by
  intro he
  apply h
  apply str_eq_of_data
  have hd : (s ++ t).data = ([] : List Char) := by rw [he]
  rw [data_append] at hd
  exact (List.append_eq_nil.mp hd).2

theorem isPre_self_append (l t : List Char) : isPre l (l ++ t) = true := by
  induction l with
  | nil => rfl
  | cons c cs ih => simp [isPre, ih]

theorem isPre_append_of {a b : List Char} (t : List Char) (h : isPre a b = true) :
    isPre a (b ++ t) = true := by
  induction a generalizing b with
  | nil => rfl
  | cons c cs ih =>
    cases b with
    | nil => simp [isPre] at h
    | cons d ds =>
      simp only [isPre, Bool.and_eq_true, beq_iff_eq] at h ⊢
      exact ⟨h.1, ih h.2⟩

theorem subAt_of_isPre {sub l : List Char} (h : isPre sub l = true) :
    subAt sub l = true := by
  cases l with
  | nil => simpa [subAt] using h
  | cons c cs => simp [subAt, h]

theorem subAt_append_right {sub t : List Char} (l : List Char)
    (h : subAt sub t = true) : subAt sub (l ++ t) = true := by
  induction l with
  | nil => simpa using h
  | cons c cs ih => simp [subAt, ih]

theorem subAt_append_left {sub l : List Char} (t : List Char)
    (h : subAt sub l = true) : subAt sub (l ++ t) = true := by
  induction l with
  | nil =>
    simp only [subAt] at h
    exact subAt_of_isPre (isPre_append_of t h)
  | cons c cs ih =>
    simp only [subAt, Bool.or_eq_true] at h
    rcases h with h | h
    · exact subAt_of_isPre (by simpa using isPre_append_of t h)
    · simp only [List.cons_append, subAt, Bool.or_eq_true]
      exact Or.inr (ih h)

theorem strIn_self (s : String) : strIn s s = true := by
  have h : isPre s.data s.data = true := by
    simpa using isPre_self_append s.data []
  simpa [strIn] using subAt_of_isPre h

theorem strIn_append_left {m s : String} (t : String) (h : strIn m s = true) :
    strIn m (s ++ t) = true := by
  simpa [strIn, data_append] using subAt_append_left t.data h

theorem strIn_append_right {m t : String} (s : String) (h : strIn m t = true) :
    strIn m (s ++ t) = true := by
  simpa [strIn, data_append] using subAt_append_right s.data h

theorem joinSep_cons_cons (sep x y : String) (xs : List String) :
    joinSep sep (x :: y :: xs) = x ++ sep ++ joinSep sep (y :: xs) := rfl

theorem strIn_joinSep {m : String} (sep : String) {l : List String}
    (hm : m ∈ l) : strIn m (joinSep sep l) = true := by
  induction l with
  | nil => cases hm
  | cons x xs ih =>
    cases xs with
    | nil =>
      rcases List.mem_singleton.mp hm with rfl
      simpa [joinSep] using strIn_self m
    | cons y ys =>
      rcases hm with _ | hm'
      · rw [joinSep_cons_cons]
        exact strIn_append_left _ (strIn_append_left _ (strIn_self m))
      · rw [joinSep_cons_cons]
        exact strIn_append_right _ (ih (by assumption))

theorem countQ_joinSep {sep : String} (hsep : countQ sep = 0) (l : List String) :
    countQ (joinSep sep l) = (l.map countQ).sum := by
  induction l with
  | nil => rfl
  | cons x xs ih =>
    cases xs with
    | nil => simp [joinSep]
    | cons y ys =>
      rw [joinSep_cons_cons]
      simp [countQ_append, hsep, ih]

theorem countQ_joinSep_zero {sep : String} (hsep : countQ sep = 0)
    {l : List String} (h : ∀ x ∈ l, countQ x = 0) : countQ (joinSep sep l) = 0 := by
  rw [countQ_joinSep hsep]
  apply List.sum_eq_zero
  intro n hn
  rcases List.mem_map.mp hn with ⟨x, hx, rfl⟩
  exact h x hx

/-! ### Digit-string lemmas for the parameter-count invariant -/

theorem digit_ne_qm {c : Char} (h : c.isDigit = true) : ¬(c = qmChar) := by
  intro he
  rw [he] at h
  exact absurd h (by decide)

theorem natDigitsAux_count (n : Nat) (acc : List Char) :
    (natDigitsAux n acc).count qmChar = acc.count qmChar := by
  induction n using Nat.strong_induction_on generalizing acc with
  | _ n ih =>
    unfold natDigitsAux
    have hall : ∀ k, k < 10 → ¬(Char.ofNat (48 + k) = qmChar) := by decide
    have hd : ¬(Char.ofNat (48 + n % 10) = qmChar) :=
      hall (n % 10) (Nat.mod_lt _ (by omega))
    by_cases hn : n < 10
    · simp [hn, List.count_cons, hd]
    · simp only [hn, if_false]
      rw [ih (n / 10) (Nat.div_lt_self (by omega) (by omega))]
      simp [List.count_cons, hd]

theorem countQ_natStr (n : Nat) : countQ (natStr n) = 0 := by
  simp [countQ, natStr, natDigitsAux_count]

theorem countQ_pyIntStr (n : Int) : countQ (pyIntStr n) = 0 := by
  unfold pyIntStr
  split
  · rw [countQ_append]
    simp [countQ_natStr]
    decide
  · exact countQ_natStr _

/-! ### Claim C3 — validator and the classic tautology injection -/

/-- C3 counterexample: the claim states that
`SELECT * FROM users WHERE name = 'a' OR '1'='1'` is rejected
(`safe=False`, suspicious-tautology rule); the validator in fact accepts it. -/
theorem taut_sql_passes_validation : (validateQuery tautSQL).safe = true := by
  decide

/-- C3 (amended): `_validate_query` implements only the keyword,
multi-statement, comment and balanced-quote checks — it has no
suspicious-composite-pattern rule — and the tautology input
`SELECT * FROM users WHERE name = 'a' OR '1'='1'` passes all four checks,
returning `{'safe': True, 'reason': None}`. -/
theorem taut_sql_validation_detail :
    validateQuery tautSQL = ⟨true, none⟩ ∧
    dangerousKeywords.find? (fun kw => strIn kw (pyUpper tautSQL)) = none ∧
    hasMultipleStatements tautSQL = false ∧
    strIn "--" tautSQL = false ∧
    strIn "/*" tautSQL = false ∧
    balancedQuotes tautSQL = true := by
  refine ⟨?_, ?_, ?_, ?_, ?_, ?_⟩ <;> decide

/-! ### Claim C4 — validator rejection and acceptance characterization -/

/-- C4 (amended): any SQL containing a denylisted keyword (case-insensitively)
is rejected; conversely, a string that passes validation contains no
denylisted keyword, no `--` or `/*` comment marker, and its quote counts are
even after subtracting backslash-escaped occurrences (the code's
`_balanced_quotes`), rather than its raw quote counts being even. -/
theorem validator_rejection_characterization (sql : String) :
    ((∃ kw ∈ dangerousKeywords, strIn kw (pyUpper sql) = true) →
      (validateQuery sql).safe = false) ∧
    ((validateQuery sql).safe = true →
      (∀ kw ∈ dangerousKeywords, strIn kw (pyUpper sql) = false) ∧
      strIn "--" sql = false ∧ strIn "/*" sql = false ∧
      balancedQuotes sql = true) := by
  constructor
  · rintro ⟨kw, hkw, hin⟩
    cases hf : dangerousKeywords.find? (fun k => strIn k (pyUpper sql)) with
    | some k => simp [validateQuery, hf]
    | none =>
      exfalso
      have := List.find?_eq_none.mp hf kw hkw
      simp [hin] at this
  · intro hsafe
    cases hf : dangerousKeywords.find? (fun k => strIn k (pyUpper sql)) with
    | some k => simp [validateQuery, hf] at hsafe
    | none =>
      simp only [validateQuery, hf] at hsafe
      by_cases hms : hasMultipleStatements sql
      · simp [hms] at hsafe
      · simp only [hms, if_false] at hsafe
        by_cases hcm : (strIn "--" sql || strIn "/*" sql) = true
        · simp [hcm] at hsafe
        · simp only [hcm, if_false] at hsafe
          by_cases hbq : balancedQuotes sql
          · refine ⟨?_, ?_, ?_, hbq⟩
            · intro kw hkw
              have := List.find?_eq_none.mp hf kw hkw
              simpa using this
            · simp only [Bool.or_eq_true] at hcm
              exact Bool.eq_false_iff.mpr (fun h => hcm (Or.inl h))
            · simp only [Bool.or_eq_true] at hcm
              exact Bool.eq_false_iff.mpr (fun h => hcm (Or.inr h))
          · simp [hbq] at hsafe

/-- C4 witness: the amended theorem applied at `"DROP TABLE t"` (rejected via
the keyword check) and at `"SELECT 1"` (accepted, hence free of keywords,
comments, and escape-adjusted quote imbalance). -/
theorem validator_rejection_characterization_witness :
    (validateQuery "DROP TABLE t").safe = false ∧
    balancedQuotes "SELECT 1" = true :=
  ⟨(validator_rejection_characterization "DROP TABLE t").1
      ⟨"DROP", by decide, by decide⟩,
    ((validator_rejection_characterization "SELECT 1").2 (by decide)).2.2.2⟩

/-- C4 counterexample: the claim's converse speaks of raw balanced (even)
quote counts; the two-character string `\'` passes validation while containing
an odd number of single-quote characters. -/
theorem esc_quote_passes_with_odd_quotes :
    (validateQuery escQuoteSQL).safe = true ∧
    countChar squote escQuoteSQL % 2 = 1 := by
  refine ⟨?_, ?_⟩ <;> decide

/-! ### Claim C5 — execution gateway error shape -/

/-- C5: with no connection, `execute` returns the structured "no connection"
failure without attempting the query; but with a closed connection (whose
`cursor()` call raises `sqlite3.Error`), the `finally: cursor.close()` clause
reads the never-assigned local `cursor` and an `UnboundLocalError` escapes
`execute` — contradicting the claim that no exception can escape. -/
theorem execute_closed_connection_escapes :
    executeModel "SELECT 1" none =
      .ret ⟨false, none, some "No database connection available", none⟩ ∧
    executeModel "SELECT 1" (some closedConn) = .exc (.unboundLocal "cursor") := by
  refine ⟨?_, ?_⟩ <;> rfl

/-! ### Claim C10 — feedback confidence adjustment bounds -/

theorem clamp_bounds (x : Rat) :
    3 / 10 ≤ min (max x (3 / 10)) (18 / 10) ∧
    min (max x (3 / 10)) (18 / 10) ≤ 18 / 10 :=
  ⟨le_min (le_max_right _ _) (by norm_num), min_le_right _ _⟩

/-- C10: for every stored feedback state and every natural-language query,
`get_confidence_adjustment` returns a multiplier in [0.3, 1.8] (the function
ends by clamping with `min(max(final_adjustment, 0.3), 1.8)`). -/
theorem confidence_adjustment_bounded (fd : FeedbackData) (q : String) :
    3 / 10 ≤ getConfidenceAdjustment fd q ∧
    getConfidenceAdjustment fd q ≤ 18 / 10 := by
  unfold getConfidenceAdjustment
  exact clamp_bounds _

/-! ### Substring decomposition lemmas -/

theorem isPre_iff {a b : List Char} : isPre a b = true ↔ ∃ t, b = a ++ t := by
  constructor
  · intro h
    induction a generalizing b with
    | nil => exact ⟨b, rfl⟩
    | cons c cs ih =>
      cases b with
      | nil => simp [isPre] at h
      | cons d ds =>
        simp only [isPre, Bool.and_eq_true, beq_iff_eq] at h
        rcases ih h.2 with ⟨t, rfl⟩
        exact ⟨t, by simp [h.1]⟩
  · rintro ⟨t, rfl⟩
    exact isPre_self_append a t

theorem subAt_iff {sub l : List Char} :
    subAt sub l = true ↔ ∃ x y, l = x ++ sub ++ y := by
  constructor
  · intro h
    induction l with
    | nil =>
      simp only [subAt] at h
      rcases isPre_iff.mp h with ⟨t, ht⟩
      rcases List.append_eq_nil.mp ht.symm with ⟨h1, h2⟩
      exact ⟨[], [], by simp [h1, h2]⟩
    | cons c cs ih =>
      simp only [subAt, Bool.or_eq_true] at h
      rcases h with h | h
      · rcases isPre_iff.mp h with ⟨t, ht⟩
        exact ⟨[], t, by simp [ht]⟩
      · rcases ih h with ⟨x, y, hxy⟩
        exact ⟨c :: x, y, by simp [hxy]⟩
  · rintro ⟨x, y, rfl⟩
    simpa [List.append_assoc] using
      subAt_append_right x (subAt_of_isPre (isPre_self_append sub y))

theorem strIn_trans {a b c : String} (h1 : strIn a b = true)
    (h2 : strIn b c = true) : strIn a c = true := by
  rcases subAt_iff.mp h1 with ⟨x1, y1, hb⟩
  rcases subAt_iff.mp h2 with ⟨x2, y2, hc⟩
  apply subAt_iff.mpr
  refine ⟨x2 ++ x1, y1 ++ y2, ?_⟩
  rw [hc, hb]
  simp

/-! ### Parameter bookkeeping of the SQL builders -/

theorem buildSelectClause_params (p : ParsedQuery) (schema : Schema) (st : GenState) :
    (buildSelectClause p schema st).2.parameters = st.parameters := by
  unfold buildSelectClause
  split_ifs <;> rfl

theorem buildFromClause_params (p : ParsedQuery) (st : GenState) :
    (buildFromClause p st).2.parameters = st.parameters := by
  unfold buildFromClause
  split_ifs <;> rfl

theorem buildGroupByClause_params (p : ParsedQuery) (st : GenState) :
    (buildGroupByClause p st).2.parameters = st.parameters := by
  simp only [buildGroupByClause]
  split_ifs <;> rfl

theorem joinStep_params (acc : List String × GenState) (j : Join) :
    (joinStep acc j).2.parameters = acc.2.parameters := rfl

theorem foldl_joinStep_params (js : List Join) :
    ∀ acc : List String × GenState,
      (js.foldl joinStep acc).2.parameters = acc.2.parameters := by
  induction js with
  | nil => intro acc; rfl
  | cons j js ih =>
    intro acc
    rw [List.foldl_cons, ih (joinStep acc j), joinStep_params]

theorem buildJoinClauses_params (p : ParsedQuery) (st : GenState) :
    (buildJoinClauses p st).2.parameters = st.parameters :=
  foldl_joinStep_params p.joins ([], st)

theorem buildDateCondition_params (c : Cond) (st : GenState) :
    ∃ d, (buildDateCondition c st).2.parameters = st.parameters ++ d := by
  unfold buildDateCondition
  by_cases h1 : (c.ctype == "year") = true
  · rw [if_pos h1]
    cases hf : findFour c.value.data with
    | some year => exact ⟨[], (List.append_nil _).symm⟩
    | none => exact ⟨[c.value], rfl⟩
  · rw [if_neg h1]
    by_cases h2 : (c.ctype == "month_year") = true
    · rw [if_pos h2]
      cases hf : findMonthYear (pyLower c.value).data with
      | some my =>
        cases my with
        | mk mnum year => exact ⟨[], (List.append_nil _).symm⟩
      | none => exact ⟨[c.value], rfl⟩
    · rw [if_neg h2]
      by_cases h3 : (c.ctype == "relative_date") = true
      · rw [if_pos h3]
        cases hf : findNumUnit c.value.data with
        | some nu =>
          cases nu with
          | mk n unit =>
            dsimp only
            by_cases hu1 : (unit == "day") = true
            · rw [if_pos hu1]; exact ⟨[], (List.append_nil _).symm⟩
            · rw [if_neg hu1]
              by_cases hu2 : (unit == "month") = true
              · rw [if_pos hu2]; exact ⟨[], (List.append_nil _).symm⟩
              · rw [if_neg hu2]; exact ⟨[], (List.append_nil _).symm⟩
        | none => exact ⟨[c.value], rfl⟩
      · rw [if_neg h3]
        by_cases h4 : (c.ctype == "today") = true
        · rw [if_pos h4]; exact ⟨[], (List.append_nil _).symm⟩
        · rw [if_neg h4]
          by_cases h5 : (c.ctype == "current_period") = true
          · rw [if_pos h5]
            by_cases hm : (strIn "month" c.value) = true
            · rw [if_pos hm]; exact ⟨[], (List.append_nil _).symm⟩
            · rw [if_neg hm]
              by_cases hy : (strIn "year" c.value) = true
              · rw [if_pos hy]; exact ⟨[], (List.append_nil _).symm⟩
              · rw [if_neg hy]; exact ⟨[c.value], rfl⟩
          · rw [if_neg h5]
            by_cases h6 : (c.ctype == "last_period") = true
            · rw [if_pos h6]
              by_cases hm : (strIn "month" c.value) = true
              · rw [if_pos hm]; exact ⟨[], (List.append_nil _).symm⟩
              · rw [if_neg hm]
                by_cases hy : (strIn "year" c.value) = true
                · rw [if_pos hy]; exact ⟨[], (List.append_nil _).symm⟩
                · rw [if_neg hy]; exact ⟨[c.value], rfl⟩
            · rw [if_neg h6]
              by_cases h7 : (c.ctype == "since_date") = true
              · rw [if_pos h7]; exact ⟨[c.value], rfl⟩
              · rw [if_neg h7]
                by_cases h8 : (c.ctype == "before_date") = true
                · rw [if_pos h8]; exact ⟨[c.value], rfl⟩
                · rw [if_neg h8]
                  by_cases h9 : (c.ctype == "on_date") = true
                  · rw [if_pos h9]; exact ⟨[c.value], rfl⟩
                  · rw [if_neg h9]; exact ⟨[c.value], rfl⟩

theorem whereStep_params (acc : List String × GenState) (c : Cond) :
    ∃ d, (whereStep acc c).2.parameters = acc.2.parameters ++ d := by
  unfold whereStep
  by_cases h1 : (c.op == "date_condition") = true
  · rw [if_pos h1]
    rcases buildDateCondition_params c acc.2 with ⟨d, hd⟩
    refine ⟨d, ?_⟩
    by_cases hz : (buildDateCondition c acc.2).1 ≠ ""
    · rw [if_pos hz]; exact hd
    · rw [if_neg hz]; exact hd
  · rw [if_neg h1]
    by_cases h2 : (c.op == "raw_condition") = true
    · rw [if_pos h2]; exact ⟨[], (List.append_nil _).symm⟩
    · rw [if_neg h2]
      by_cases h3 : (c.op == "IS NULL" || c.op == "IS NOT NULL") = true
      · rw [if_pos h3]; exact ⟨[], (List.append_nil _).symm⟩
      · rw [if_neg h3]
        by_cases h4 : (c.op == "LIKE") = true
        · rw [if_pos h4]; exact ⟨_, rfl⟩
        · rw [if_neg h4]
          by_cases h5 : (c.op == "IN") = true
          · rw [if_pos h5]; exact ⟨_, rfl⟩
          · rw [if_neg h5]
            by_cases h6 : (c.op == "BETWEEN") = true
            · rw [if_pos h6]
              by_cases ha : (strIn " and " (pyLower c.value)) = true
              · rw [if_pos ha]; exact ⟨_, rfl⟩
              · rw [if_neg ha]; exact ⟨_, rfl⟩
            · rw [if_neg h6]; exact ⟨_, rfl⟩

theorem updateWhereStep_params (acc : List String × GenState) (c : Cond) :
    ∃ d, (updateWhereStep acc c).2.parameters = acc.2.parameters ++ d := by
  unfold updateWhereStep
  by_cases h1 : (c.op == "date_condition") = true
  · rw [if_pos h1]
    rcases buildDateCondition_params c acc.2 with ⟨d, hd⟩
    refine ⟨d, ?_⟩
    by_cases hz : (buildDateCondition c acc.2).1 ≠ ""
    · rw [if_pos hz]; exact hd
    · rw [if_neg hz]; exact hd
  · rw [if_neg h1]
    by_cases h2 : (c.op == "raw_condition") = true
    · rw [if_pos h2]; exact ⟨[], (List.append_nil _).symm⟩
    · rw [if_neg h2]
      by_cases h3 : (c.op == "IS NULL" || c.op == "IS NOT NULL") = true
      · rw [if_pos h3]; exact ⟨[], (List.append_nil _).symm⟩
      · rw [if_neg h3]; exact ⟨_, rfl⟩

theorem foldl_whereStep_params (cs : List Cond) :
    ∀ acc : List String × GenState,
      ∃ d, (cs.foldl whereStep acc).2.parameters = acc.2.parameters ++ d := by
  induction cs with
  | nil => intro acc; exact ⟨[], by simp⟩
  | cons c cs ih =>
    intro acc
    rcases whereStep_params acc c with ⟨d1, h1⟩
    rcases ih (whereStep acc c) with ⟨d2, h2⟩
    exact ⟨d1 ++ d2, by rw [List.foldl_cons, h2, h1, List.append_assoc]⟩

theorem foldl_updateWhereStep_params (cs : List Cond) :
    ∀ acc : List String × GenState,
      ∃ d, (cs.foldl updateWhereStep acc).2.parameters = acc.2.parameters ++ d := by
  induction cs with
  | nil => intro acc; exact ⟨[], by simp⟩
  | cons c cs ih =>
    intro acc
    rcases updateWhereStep_params acc c with ⟨d1, h1⟩
    rcases ih (updateWhereStep acc c) with ⟨d2, h2⟩
    exact ⟨d1 ++ d2, by rw [List.foldl_cons, h2, h1, List.append_assoc]⟩

theorem buildWhereClause_parts (p : ParsedQuery) (st : GenState) :
    ∃ condStrs : List String,
      (buildWhereClause p st).1 =
        "WHERE " ++ joinSep " AND "
          ("user_id = ?" :: "company_name = ?" :: condStrs) ∧
      ∃ d, (buildWhereClause p st).2.parameters =
        st.parameters ++
          [p.user_filters.user_id, p.user_filters.company_name] ++ d := by
  refine ⟨(p.conditions.foldl whereStep ([], tenantState p st)).1, rfl, ?_⟩
  rcases foldl_whereStep_params p.conditions ([], tenantState p st) with ⟨d, hd⟩
  refine ⟨d, ?_⟩
  show (p.conditions.foldl whereStep ([], tenantState p st)).2.parameters = _
  rw [hd]
  rfl

theorem strIn_tenant_join (condStrs : List String) :
    strIn "user_id = ?"
      ("WHERE " ++ joinSep " AND "
        ("user_id = ?" :: "company_name = ?" :: condStrs)) = true ∧
    strIn "company_name = ?"
      ("WHERE " ++ joinSep " AND "
        ("user_id = ?" :: "company_name = ?" :: condStrs)) = true :=
  ⟨strIn_append_right _ (strIn_joinSep _ (by simp)),
   strIn_append_right _ (strIn_joinSep _ (by simp))⟩

theorem generateSelect_tenant (p : ParsedQuery) (schema : Schema) (st : GenState) :
    strIn "user_id = ?" (generateSelect p schema st).1 = true ∧
    strIn "company_name = ?" (generateSelect p schema st).1 = true ∧
    ∃ d, (generateSelect p schema st).2.parameters =
      st.parameters ++
        [p.user_filters.user_id, p.user_filters.company_name] ++ d := by
  unfold generateSelect
  set selR := buildSelectClause p schema st with hsel
  set fromR := buildFromClause p selR.2 with hfrom
  set joinR := (if p.joins ≠ [] then buildJoinClauses p fromR.2 else ([], fromR.2))
    with hjoin
  set whereR := buildWhereClause p joinR.2 with hwhere
  set gbR := (if p.group_by ≠ [] || p.aggregations ≠ [] then
      buildGroupByClause p whereR.2 else ("", whereR.2)) with hgb
  rcases buildWhereClause_parts p joinR.2 with ⟨condStrs, hq, d, hp⟩
  have hmem : whereR.1 ∈
      ([selR.1, fromR.1] ++ joinR.1 ++ [whereR.1] ++
        (if gbR.1 ≠ "" then [gbR.1] else []) ++
        (if p.order_by ≠ [] then [buildOrderByClause p] else []) ++
        (match p.limit with
          | some n => if n ≠ 0 then ["LIMIT " ++ pyIntStr n] else []
          | none => [])) := by simp
  have hwq : strIn "user_id = ?" whereR.1 = true ∧
      strIn "company_name = ?" whereR.1 = true := by
    rw [hwhere, hq]
    exact strIn_tenant_join condStrs
  refine ⟨strIn_trans hwq.1 (strIn_joinSep _ hmem),
          strIn_trans hwq.2 (strIn_joinSep _ hmem), d, ?_⟩
  show gbR.2.parameters = _
  have h5 : gbR.2.parameters = whereR.2.parameters := by
    rw [hgb]
    split_ifs with hc
    · exact buildGroupByClause_params p whereR.2
    · rfl
  have h3 : joinR.2.parameters = fromR.2.parameters := by
    rw [hjoin]
    split_ifs with hc
    · exact buildJoinClauses_params p fromR.2
    · rfl
  rw [h5, hwhere, hp, h3, hfrom, buildFromClause_params, hsel,
    buildSelectClause_params]

theorem updateCondResult_params (p : ParsedQuery) (st2 : GenState) :
    ∃ d, (updateCondResult p st2).2.parameters = st2.parameters ++ d := by
  unfold updateCondResult
  split_ifs with hc
  · exact foldl_updateWhereStep_params p.conditions ([], st2)
  · exact ⟨[], by simp⟩

theorem deleteCondResult_params (p : ParsedQuery) (st2 : GenState) :
    ∃ d, (deleteCondResult p st2).2.parameters = st2.parameters ++ d := by
  unfold deleteCondResult
  split_ifs with hc
  · exact foldl_updateWhereStep_params p.conditions ([], st2)
  · exact ⟨[], by simp⟩

theorem generateDelete_tenant (p : ParsedQuery) (st : GenState)
    (schema : Schema) (ht : p.tables ≠ []) :
    strIn "user_id = ?" (generateDelete p schema st).1 = true ∧
    strIn "company_name = ?" (generateDelete p schema st).1 = true ∧
    ∃ d, (generateDelete p schema st).2.parameters =
      st.parameters ++
        [p.user_filters.user_id, p.user_filters.company_name] ++ d := by
  unfold generateDelete
  simp only [ht, if_false]
  set condR := deleteCondResult p (deleteState p st) with hcond
  have hwq := strIn_tenant_join condR.1
  have hmem : ("WHERE " ++ joinSep " AND "
      ("user_id = ?" :: "company_name = ?" :: condR.1)) ∈
      ["DELETE FROM " ++ p.tables.headD "",
       "WHERE " ++ joinSep " AND "
         ("user_id = ?" :: "company_name = ?" :: condR.1)] := by simp
  refine ⟨strIn_trans hwq.1 (strIn_joinSep _ hmem),
          strIn_trans hwq.2 (strIn_joinSep _ hmem), ?_⟩
  rcases updateCondResult_params p (deleteState p st) with ⟨d0, hd0⟩
  rcases deleteCondResult_params p (deleteState p st) with ⟨d, hd⟩
  exact ⟨d, by rw [hcond, hd]; rfl⟩

theorem generateUpdate_tenant (p : ParsedQuery) (st : GenState)
    (schema : Schema) (ht : p.tables ≠ []) :
    strIn "user_id = ?" (generateUpdate p schema st).1 = true ∧
    strIn "company_name = ?" (generateUpdate p schema st).1 = true ∧
    ∃ d, (generateUpdate p schema st).2.parameters =
      st.parameters ++
        [p.user_filters.user_id, p.user_filters.company_name] ++ d := by
  unfold generateUpdate
  simp only [ht, if_false]
  set condR := updateCondResult p (updateState p st) with hcond
  have hwq := strIn_tenant_join condR.1
  have hmem : ("WHERE " ++ joinSep " AND "
      ("user_id = ?" :: "company_name = ?" :: condR.1)) ∈
      ["UPDATE " ++ p.tables.headD "", "SET column_name = ?",
       "WHERE " ++ joinSep " AND "
         ("user_id = ?" :: "company_name = ?" :: condR.1)] := by simp
  refine ⟨strIn_trans hwq.1 (strIn_joinSep _ hmem),
          strIn_trans hwq.2 (strIn_joinSep _ hmem), ?_⟩
  rcases updateCondResult_params p (updateState p st) with ⟨d, hd⟩
  exact ⟨d, by rw [hcond, hd]; rfl⟩

/-! ### Claim C1 — tenant isolation -/

/-- C1 (amended): for every parsed query with action SELECT — and for UPDATE
or DELETE provided at least one table was resolved — the generated SQL
contains both tenant predicates `user_id = ?` and `company_name = ?`, and the
identity values are the first two parameters.  (When an UPDATE/DELETE query
has no resolved table, the generator returns a `-- Unable to generate ...`
comment with no WHERE clause and an empty parameter list.) -/
theorem tenant_isolation (p : ParsedQuery) (schema : Schema)
    (h : p.action = "SELECT" ∨
      ((p.action = "UPDATE" ∨ p.action = "DELETE") ∧ p.tables ≠ [])) :
    strIn "user_id = ?" (generate p schema).query = true ∧
    strIn "company_name = ?" (generate p schema).query = true ∧
    ∃ rest, (generate p schema).parameters =
      p.user_filters.user_id :: p.user_filters.company_name :: rest := by
  unfold generate
  rcases h with h | ⟨h, ht⟩
  · rw [show (p.action == "SELECT") = true by simp [h]]
    simp only [if_true]
    rcases generateSelect_tenant p schema ⟨[], [], 1⟩ with ⟨h1, h2, d, hd⟩
    exact ⟨h1, h2, d, by simpa using hd⟩
  · rcases h with h | h
    · rw [show (p.action == "SELECT") = false by simp [h],
        show (p.action == "INSERT") = false by simp [h],
        show (p.action == "UPDATE") = true by simp [h]]
      simp only [Bool.false_eq_true, if_false, if_true]
      rcases generateUpdate_tenant p ⟨[], [], 1⟩ schema ht with ⟨h1, h2, d, hd⟩
      exact ⟨h1, h2, d, by simpa using hd⟩
    · rw [show (p.action == "SELECT") = false by simp [h],
        show (p.action == "INSERT") = false by simp [h],
        show (p.action == "UPDATE") = false by simp [h],
        show (p.action == "DELETE") = true by simp [h]]
      simp only [Bool.false_eq_true, if_false, if_true]
      rcases generateDelete_tenant p ⟨[], [], 1⟩ schema ht with ⟨h1, h2, d, hd⟩
      exact ⟨h1, h2, d, by simpa using hd⟩

/-- C1 witness: the amended theorem applied to a concrete SELECT query. -/
theorem tenant_isolation_witness :
    strIn "user_id = ?" (generate pqSelectBasic tallySchema).query = true ∧
    strIn "company_name = ?" (generate pqSelectBasic tallySchema).query = true ∧
    ∃ rest, (generate pqSelectBasic tallySchema).parameters =
      "demo_user" :: "Demo Company Ltd" :: rest :=
  tenant_isolation pqSelectBasic tallySchema (Or.inl rfl)

/-- C1 counterexample: for a DELETE parsed query with no resolved table the
claim fails — the generated text is a comment without the tenant predicates
and the parameter list is empty. -/
theorem tenant_isolation_needs_table :
    (generate pqDeleteNoTables tallySchema).query =
      "-- Unable to generate DELETE query: no table specified" ∧
    strIn "user_id = ?" (generate pqDeleteNoTables tallySchema).query = false ∧
    (generate pqDeleteNoTables tallySchema).parameters = [] := by
  refine ⟨rfl, ?_, rfl⟩
  decide

/-! ### Placeholder counting through the SQL builders -/

theorem countQ_of_all_digits {s : String} (h : ∀ c ∈ s.data, c.isDigit = true) :
    countQ s = 0 := by
  rw [countQ, List.count_eq_zero]
  intro hmem
  exact absurd (h _ hmem) (by decide)

theorem fourDigitsAt_countQ {l : List Char} {r : String × List Char}
    (h : fourDigitsAt l = some r) : countQ r.1 = 0 := by
  match l, h with
  | a :: b :: c :: d :: rest, h =>
    have h2 : (if (a.isDigit && b.isDigit && c.isDigit && d.isDigit) = true then
        some ((⟨[a, b, c, d]⟩ : String), rest) else none) = some r := h
    by_cases hd : (a.isDigit && b.isDigit && c.isDigit && d.isDigit) = true
    · rw [if_pos hd] at h2
      simp only [Bool.and_eq_true] at hd
      cases h2
      apply countQ_of_all_digits
      intro x hx
      rcases (by simpa using hx : x = a ∨ x = b ∨ x = c ∨ x = d) with
        rfl | rfl | rfl | rfl
      · exact hd.1.1.1
      · exact hd.1.1.2
      · exact hd.1.2
      · exact hd.2
    · rw [if_neg hd] at h2
      cases h2

theorem findFour_countQ : ∀ {l : List Char} {s : String},
    findFour l = some s → countQ s = 0 := by
  intro l
  induction l with
  | nil => intro s h; simp [findFour] at h
  | cons c cs ih =>
    intro s h
    rw [findFour] at h
    cases hf : fourDigitsAt (c :: cs) with
    | some r =>
      rw [hf] at h
      cases h
      exact fourDigitsAt_countQ hf
    | none =>
      rw [hf] at h
      exact ih h

theorem findSome?_mem {α β : Type} (f : α → Option β) :
    ∀ {l : List α} {b : β}, l.findSome? f = some b → ∃ a ∈ l, f a = some b := by
  intro l
  induction l with
  | nil => intro b h; simp [List.findSome?] at h
  | cons x xs ih =>
    intro b h
    rw [List.findSome?_cons] at h
    cases hfx : f x with
    | some v =>
      rw [hfx] at h
      have h2 : some v = some b := h
      cases h2
      exact ⟨x, by simp, hfx⟩
    | none =>
      rw [hfx] at h
      have h2 : xs.findSome? f = some b := h
      rcases ih h2 with ⟨a, ha, hfa⟩
      exact ⟨a, by simp [ha], hfa⟩

theorem monthAt_countQ {l : List Char} {mp : String × String}
    (h : monthAt l = some mp) : countQ mp.2 = 0 := by
  rcases findSome?_mem _ h with ⟨a, ha, hfa⟩
  have hz : ∀ q ∈ monthList, countQ q.2 = 0 := by decide
  by_cases hpre : isPre a.1.data l = true
  · rw [if_pos hpre] at hfa
    have ham := Option.some.inj hfa
    subst ham
    exact hz _ ha
  · rw [if_neg hpre] at hfa
    cases hfa

theorem findMonthYear_countQ : ∀ {l : List Char} {r : String × String},
    findMonthYear l = some r → countQ r.1 = 0 ∧ countQ r.2 = 0 := by
  intro l
  induction l with
  | nil => intro r h; simp [findMonthYear] at h
  | cons c cs ih =>
    intro r h
    rw [findMonthYear] at h
    cases hm : monthAt (c :: cs) with
    | some mp =>
      rw [hm] at h
      rcases mp with ⟨mname, mnum⟩
      dsimp only at h
      by_cases hw : (((c :: cs).drop mname.length).takeWhile isPySpace).length == 0
      · rw [if_pos hw] at h
        exact ih h
      · rw [if_neg hw] at h
        cases hfd : fourDigitsAt
            (((c :: cs).drop mname.length).drop
              (((c :: cs).drop mname.length).takeWhile isPySpace).length) with
        | some fr =>
          rw [hfd] at h
          cases h
          exact ⟨monthAt_countQ hm, fourDigitsAt_countQ hfd⟩
        | none =>
          rw [hfd] at h
          exact ih h
    | none =>
      rw [hm] at h
      exact ih h

/-- The canonical `buildDateCondition` specification: the state only gains
parameters (never loses), the produced string holds exactly one `?` per new
parameter, it is never empty, and the confidence is untouched. -/
theorem buildDateCondition_spec (c : Cond) (st : GenState)
    (hf : countQ c.field = 0) :
    ∃ d, (buildDateCondition c st).2.parameters = st.parameters ++ d ∧
      countQ (buildDateCondition c st).1 = d.length ∧
      (buildDateCondition c st).1 ≠ "" ∧
      (buildDateCondition c st).2.confidence = st.confidence := by
  unfold buildDateCondition
  by_cases h1 : (c.ctype == "year") = true
  · rw [if_pos h1]
    cases hfr : findFour c.value.data with
    | some year =>
      refine ⟨[], (List.append_nil _).symm, ?_, ?_, rfl⟩
      · simp only [countQ_append, hf, findFour_countQ hfr]
        decide
      · exact append_ne_empty (by decide)
    | none =>
      refine ⟨[c.value], rfl, ?_, append_ne_empty (by decide), rfl⟩
      simp only [countQ_append, hf, List.length_singleton]
      decide
  · rw [if_neg h1]
    by_cases h2 : (c.ctype == "month_year") = true
    · rw [if_pos h2]
      cases hfr : findMonthYear (pyLower c.value).data with
      | some my =>
        rcases my with ⟨mnum, year⟩
        refine ⟨[], (List.append_nil _).symm, ?_, ?_, rfl⟩
        · have hmy := findMonthYear_countQ hfr
          simp only [countQ_append, hf, hmy.1, hmy.2]
          decide
        · exact append_ne_empty (by decide)
      | none =>
        refine ⟨[c.value], rfl, ?_, append_ne_empty (by decide), rfl⟩
        simp only [countQ_append, hf, List.length_singleton]
        decide
    · rw [if_neg h2]
      by_cases h3 : (c.ctype == "relative_date") = true
      · rw [if_pos h3]
        cases hfr : findNumUnit c.value.data with
        | some nu =>
          rcases nu with ⟨n, unit⟩
          dsimp only
          by_cases hu1 : (unit == "day") = true
          · rw [if_pos hu1]
            refine ⟨[], (List.append_nil _).symm, ?_, append_ne_empty (by decide), rfl⟩
            simp only [countQ_append, hf, countQ_natStr]
            decide
          · rw [if_neg hu1]
            by_cases hu2 : (unit == "month") = true
            · rw [if_pos hu2]
              refine ⟨[], (List.append_nil _).symm, ?_, append_ne_empty (by decide), rfl⟩
              simp only [countQ_append, hf, countQ_natStr]
              decide
            · rw [if_neg hu2]
              refine ⟨[], (List.append_nil _).symm, ?_, append_ne_empty (by decide), rfl⟩
              simp only [countQ_append, hf, countQ_natStr]
              decide
        | none =>
          refine ⟨[c.value], rfl, ?_, append_ne_empty (by decide), rfl⟩
          simp only [countQ_append, hf, List.length_singleton]
          decide
      · rw [if_neg h3]
        by_cases h4 : (c.ctype == "today") = true
        · rw [if_pos h4]
          refine ⟨[], (List.append_nil _).symm, ?_, append_ne_empty (by decide), rfl⟩
          simp only [countQ_append, hf, List.length_singleton]
          decide
        · rw [if_neg h4]
          by_cases h5 : (c.ctype == "current_period") = true
          · rw [if_pos h5]
            by_cases hm : (strIn "month" c.value) = true
            · rw [if_pos hm]
              refine ⟨[], (List.append_nil _).symm, ?_, append_ne_empty (by decide), rfl⟩
              simp only [countQ_append, hf, List.length_singleton]
              decide
            · rw [if_neg hm]
              by_cases hy : (strIn "year" c.value) = true
              · rw [if_pos hy]
                refine ⟨[], (List.append_nil _).symm, ?_, append_ne_empty (by decide), rfl⟩
                simp only [countQ_append, hf, List.length_singleton]
                decide
              · rw [if_neg hy]
                refine ⟨[c.value], rfl, ?_, append_ne_empty (by decide), rfl⟩
                simp only [countQ_append, hf, List.length_singleton]
                decide
          · rw [if_neg h5]
            by_cases h6 : (c.ctype == "last_period") = true
            · rw [if_pos h6]
              by_cases hm : (strIn "month" c.value) = true
              · rw [if_pos hm]
                refine ⟨[], (List.append_nil _).symm, ?_, append_ne_empty (by decide), rfl⟩
                simp only [countQ_append, hf, List.length_singleton]
                decide
              · rw [if_neg hm]
                by_cases hy : (strIn "year" c.value) = true
                · rw [if_pos hy]
                  refine ⟨[], (List.append_nil _).symm, ?_, append_ne_empty (by decide), rfl⟩
                  simp only [countQ_append, hf, List.length_singleton]
                  decide
                · rw [if_neg hy]
                  refine ⟨[c.value], rfl, ?_, append_ne_empty (by decide), rfl⟩
                  simp only [countQ_append, hf, List.length_singleton]
                  decide
            · rw [if_neg h6]
              by_cases h7 : (c.ctype == "since_date") = true
              · rw [if_pos h7]
                refine ⟨[c.value], rfl, ?_, append_ne_empty (by decide), rfl⟩
                simp only [countQ_append, hf, List.length_singleton]
                decide
              · rw [if_neg h7]
                by_cases h8 : (c.ctype == "before_date") = true
                · rw [if_pos h8]
                  refine ⟨[c.value], rfl, ?_, append_ne_empty (by decide), rfl⟩
                  simp only [countQ_append, hf, List.length_singleton]
                  decide
                · rw [if_neg h8]
                  by_cases h9 : (c.ctype == "on_date") = true
                  · rw [if_pos h9]
                    refine ⟨[c.value], rfl, ?_, append_ne_empty (by decide), rfl⟩
                    simp only [countQ_append, hf, List.length_singleton]
                    decide
                  · rw [if_neg h9]
                    refine ⟨[c.value], rfl, ?_, append_ne_empty (by decide), rfl⟩
                    simp only [countQ_append, hf, List.length_singleton]
                    decide

theorem AllZ_nil : AllZ [] := by
  intro x hx
  cases hx

theorem AllZ_append {l1 l2 : List String} (h1 : AllZ l1) (h2 : AllZ l2) :
    AllZ (l1 ++ l2) := by
  intro x hx
  rcases List.mem_append.mp hx with h | h
  exacts [h1 x h, h2 x h]

theorem sum_map_placeholder (values : List String) :
    ((values.map (fun _ => "?")).map countQ).sum = values.length := by
  induction values with
  | nil => rfl
  | cons v vs ih =>
    simp only [List.map_cons, List.sum_cons, ih, List.length_cons]
    have h1 : countQ "?" = 1 := by decide
    omega

theorem countQ_placeholders (values : List String) :
    countQ (joinSep ", " (values.map fun _ => "?")) = values.length := by
  rw [countQ_joinSep (by decide), sum_map_placeholder]

/-- One condition-loop iteration of `_build_where_clause`: the appended
condition strings carry exactly one `?` per appended parameter. -/
theorem whereStep_spec (acc : List String × GenState) (c : Cond) (hc : CondOk c) :
    ∃ news d, (whereStep acc c).1 = acc.1 ++ news ∧
      (whereStep acc c).2.parameters = acc.2.parameters ++ d ∧
      (news.map countQ).sum = d.length ∧
      (whereStep acc c).2.confidence = acc.2.confidence := by
  unfold whereStep
  by_cases h1 : (c.op == "date_condition") = true
  · rw [if_pos h1]
    rcases buildDateCondition_spec c acc.2 hc.1 with ⟨d, hp, hcount, hne, hconf⟩
    rw [if_pos hne]
    refine ⟨[(buildDateCondition c acc.2).1], d, rfl, hp, ?_, hconf⟩
    simp [hcount]
  · rw [if_neg h1]
    by_cases h2 : (c.op == "raw_condition") = true
    · rw [if_pos h2]
      refine ⟨[c.value], [], rfl, (List.append_nil _).symm, ?_, rfl⟩
      simp [hc.2.2]
    · rw [if_neg h2]
      by_cases h3 : (c.op == "IS NULL" || c.op == "IS NOT NULL") = true
      · rw [if_pos h3]
        refine ⟨[c.field ++ " " ++ c.op], [], rfl, (List.append_nil _).symm, ?_, rfl⟩
        simp only [List.map_cons, List.map_nil, List.sum_cons, List.sum_nil,
          countQ_append, hc.1, hc.2.1, List.length_nil]
        decide
      · rw [if_neg h3]
        by_cases h4 : (c.op == "LIKE") = true
        · rw [if_pos h4]
          refine ⟨[c.field ++ " LIKE ?"], ["%" ++ c.value ++ "%"], rfl, rfl, ?_, rfl⟩
          simp only [List.map_cons, List.map_nil, List.sum_cons, List.sum_nil,
            countQ_append, hc.1, List.length_singleton]
          decide
        · rw [if_neg h4]
          by_cases h5 : (c.op == "IN") = true
          · rw [if_pos h5]
            refine ⟨[c.field ++ " IN (" ++
                joinSep ", " (((pySplit "," c.value).map pyStrip).map (fun _ => "?")) ++
                ")"],
              (pySplit "," c.value).map pyStrip, rfl, rfl, ?_, rfl⟩
            simp only [List.map_cons, List.map_nil, List.sum_cons, List.sum_nil,
              countQ_append, hc.1, countQ_placeholders, List.length_map]
            have h6 : countQ " IN (" = 0 := by decide
            have h7 : countQ ")" = 0 := by decide
            omega
          · rw [if_neg h5]
            by_cases h6 : (c.op == "BETWEEN") = true
            · rw [if_pos h6]
              by_cases ha : (strIn " and " (pyLower c.value)) = true
              · rw [if_pos ha]
                refine ⟨[c.field ++ " BETWEEN ? AND ?"], _, rfl, rfl, ?_, rfl⟩
                simp only [List.map_cons, List.map_nil, List.sum_cons, List.sum_nil,
                  countQ_append, hc.1, List.length_cons, List.length_nil]
                decide
              · rw [if_neg ha]
                refine ⟨[c.field ++ " " ++ c.op ++ " ?"], [c.value], rfl, rfl, ?_, rfl⟩
                simp only [List.map_cons, List.map_nil, List.sum_cons, List.sum_nil,
                  countQ_append, hc.1, hc.2.1, List.length_singleton]
                decide
            · rw [if_neg h6]
              refine ⟨[c.field ++ " " ++ c.op ++ " ?"], [c.value], rfl, rfl, ?_, rfl⟩
              simp only [List.map_cons, List.map_nil, List.sum_cons, List.sum_nil,
                countQ_append, hc.1, hc.2.1, List.length_singleton]
              decide

/-- One condition-loop iteration of `_generate_update` / `_generate_delete`. -/
theorem updateWhereStep_spec (acc : List String × GenState) (c : Cond)
    (hc : CondOk c) :
    ∃ news d, (updateWhereStep acc c).1 = acc.1 ++ news ∧
      (updateWhereStep acc c).2.parameters = acc.2.parameters ++ d ∧
      (news.map countQ).sum = d.length ∧
      (updateWhereStep acc c).2.confidence = acc.2.confidence := by
  unfold updateWhereStep
  by_cases h1 : (c.op == "date_condition") = true
  · rw [if_pos h1]
    rcases buildDateCondition_spec c acc.2 hc.1 with ⟨d, hp, hcount, hne, hconf⟩
    rw [if_pos hne]
    refine ⟨[(buildDateCondition c acc.2).1], d, rfl, hp, ?_, hconf⟩
    simp [hcount]
  · rw [if_neg h1]
    by_cases h2 : (c.op == "raw_condition") = true
    · rw [if_pos h2]
      refine ⟨[c.value], [], rfl, (List.append_nil _).symm, ?_, rfl⟩
      simp [hc.2.2]
    · rw [if_neg h2]
      by_cases h3 : (c.op == "IS NULL" || c.op == "IS NOT NULL") = true
      · rw [if_pos h3]
        refine ⟨[c.field ++ " " ++ c.op], [], rfl, (List.append_nil _).symm, ?_, rfl⟩
        simp only [List.map_cons, List.map_nil, List.sum_cons, List.sum_nil,
          countQ_append, hc.1, hc.2.1, List.length_nil]
        decide
      · rw [if_neg h3]
        refine ⟨[c.field ++ " " ++ c.op ++ " ?"], [c.value], rfl, rfl, ?_, rfl⟩
        simp only [List.map_cons, List.map_nil, List.sum_cons, List.sum_nil,
          countQ_append, hc.1, hc.2.1, List.length_singleton]
        decide

theorem foldl_whereStep_spec (cs : List Cond) (h : ∀ c ∈ cs, CondOk c) :
    ∀ acc : List String × GenState,
      ∃ news d, (cs.foldl whereStep acc).1 = acc.1 ++ news ∧
        (cs.foldl whereStep acc).2.parameters = acc.2.parameters ++ d ∧
        (news.map countQ).sum = d.length ∧
        (cs.foldl whereStep acc).2.confidence = acc.2.confidence := by
  induction cs with
  | nil =>
    intro acc
    exact ⟨[], [], by simp, by simp, rfl, rfl⟩
  | cons c cs ih =>
    intro acc
    rcases whereStep_spec acc c (h c (by simp)) with ⟨n1, d1, hn1, hd1, hs1, hc1⟩
    rcases ih (fun c hc => h c (by simp [hc])) (whereStep acc c) with
      ⟨n2, d2, hn2, hd2, hs2, hc2⟩
    refine ⟨n1 ++ n2, d1 ++ d2, ?_, ?_, ?_, ?_⟩
    · rw [List.foldl_cons, hn2, hn1, List.append_assoc]
    · rw [List.foldl_cons, hd2, hd1, List.append_assoc]
    · simp [hs1, hs2]
    · rw [List.foldl_cons, hc2, hc1]

theorem foldl_updateWhereStep_spec (cs : List Cond) (h : ∀ c ∈ cs, CondOk c) :
    ∀ acc : List String × GenState,
      ∃ news d, (cs.foldl updateWhereStep acc).1 = acc.1 ++ news ∧
        (cs.foldl updateWhereStep acc).2.parameters = acc.2.parameters ++ d ∧
        (news.map countQ).sum = d.length ∧
        (cs.foldl updateWhereStep acc).2.confidence = acc.2.confidence := by
  induction cs with
  | nil =>
    intro acc
    exact ⟨[], [], by simp, by simp, rfl, rfl⟩
  | cons c cs ih =>
    intro acc
    rcases updateWhereStep_spec acc c (h c (by simp)) with ⟨n1, d1, hn1, hd1, hs1, hc1⟩
    rcases ih (fun c hc => h c (by simp [hc])) (updateWhereStep acc c) with
      ⟨n2, d2, hn2, hd2, hs2, hc2⟩
    refine ⟨n1 ++ n2, d1 ++ d2, ?_, ?_, ?_, ?_⟩
    · rw [List.foldl_cons, hn2, hn1, List.append_assoc]
    · rw [List.foldl_cons, hd2, hd1, List.append_assoc]
    · simp [hs1, hs2]
    · rw [List.foldl_cons, hc2, hc1]

/-- The WHERE clause carries exactly one `?` per bound parameter: two for the
tenant predicates plus those of the parsed conditions. -/
theorem buildWhereClause_spec (p : ParsedQuery) (st : GenState)
    (h : ∀ c ∈ p.conditions, CondOk c) :
    ∃ d, (buildWhereClause p st).2.parameters =
        st.parameters ++
          ([p.user_filters.user_id, p.user_filters.company_name] ++ d) ∧
      countQ (buildWhereClause p st).1 = 2 + d.length ∧
      (buildWhereClause p st).2.confidence = st.confidence := by
  rcases foldl_whereStep_spec p.conditions h ([], tenantState p st) with
    ⟨news, d, hn, hd, hs, hcf⟩
  refine ⟨d, ?_, ?_, ?_⟩
  · show (p.conditions.foldl whereStep ([], tenantState p st)).2.parameters = _
    rw [hd]
    show (tenantState p st).parameters ++ d = _
    simp [tenantState]
  · show countQ ("WHERE " ++ joinSep " AND "
      ("user_id = ?" :: "company_name = ?" ::
        (p.conditions.foldl whereStep ([], tenantState p st)).1)) = 2 + d.length
    rw [hn]
    simp only [List.nil_append]
    rw [countQ_append, countQ_joinSep (by decide)]
    simp only [List.map_cons, List.sum_cons, hs]
    have h1 : countQ "WHERE " = 0 := by decide
    have h2 : countQ "user_id = ?" = 1 := by decide
    have h3 : countQ "company_name = ?" = 1 := by decide
    omega
  · show (p.conditions.foldl whereStep ([], tenantState p st)).2.confidence = _
    rw [hcf]
    rfl

theorem headD_mem {l : List String} (h : l ≠ []) : l.headD "" ∈ l := by
  cases l with
  | nil => exact absurd rfl h
  | cons a as => simp [List.headD]

theorem findColumnTable_countQ (col : String) (tables : List String)
    (schema : Schema) (h : AllZ tables) :
    countQ (findColumnTable col tables schema) = 0 := by
  unfold findColumnTable
  cases hf : tables.find? (fun t =>
      match schemaFind schema t with
      | some td => td.columns.any (fun ci => ci.name == col)
      | none => false) with
  | some t => exact h t (List.mem_of_find?_eq_some hf)
  | none =>
    cases tables with
    | nil => decide
    | cons a as => exact h _ (by simp [List.headD])

theorem buildSelectClause_countQ (p : ParsedQuery) (schema : Schema) (st : GenState)
    (hcol : AllZ p.columns) (htab : AllZ p.tables)
    (hagg : ∀ a ∈ p.aggregations, countQ a.func = 0 ∧ countQ a.column = 0)
    (hgb : AllZ p.group_by) :
    countQ (buildSelectClause p schema st).1 = 0 := by
  unfold buildSelectClause
  by_cases h1 : p.aggregations ≠ []
  · rw [if_pos h1]
    rw [countQ_append, countQ_joinSep_zero (by decide) ?_]
    · decide
    · apply AllZ_append
      · intro x hx
        rcases List.mem_map.mp hx with ⟨a, ha, rfl⟩
        by_cases hca : (a.func == "COUNT" && a.column == "*") = true
        · rw [if_pos hca]; decide
        · rw [if_neg hca]
          simp only [countQ_append, (hagg a ha).1, (hagg a ha).2]
          decide
      · by_cases hg : p.group_by ≠ []
        · rw [if_pos hg]
          intro x hx
          exact hgb x (List.mem_of_mem_filter hx)
        · rw [if_neg hg]
          exact AllZ_nil
  · rw [if_neg h1]
    by_cases h2 : p.columns ≠ []
    · rw [if_pos h2]
      by_cases h3 : (p.columns == ["*"]) = true
      · rw [if_pos h3]; rfl
      · rw [if_neg h3]
        by_cases h4 : p.tables.length > 1
        · rw [if_pos h4]
          rw [countQ_append, countQ_joinSep_zero (by decide) ?_]
          · decide
          · intro x hx
            rcases List.mem_map.mp hx with ⟨col, hcolmem, rfl⟩
            by_cases h5 : (!(strIn "." col) && col ≠ "*") = true
            · rw [if_pos h5]
              by_cases h6 : findColumnTable col p.tables schema ≠ ""
              · rw [if_pos h6]
                simp only [countQ_append, hcol col hcolmem,
                  findColumnTable_countQ col p.tables schema htab]
                decide
              · rw [if_neg h6]
                exact hcol col hcolmem
            · rw [if_neg h5]
              exact hcol col hcolmem
        · rw [if_neg h4]
          rw [countQ_append, countQ_joinSep_zero (by decide) hcol]
          decide
    · rw [if_neg h2]
      rfl

theorem buildFromClause_countQ (p : ParsedQuery) (st : GenState)
    (htab : AllZ p.tables) : countQ (buildFromClause p st).1 = 0 := by
  unfold buildFromClause
  by_cases h : p.tables = []
  · rw [if_pos h]; rfl
  · rw [if_neg h]
    rw [countQ_append, htab _ (headD_mem h)]
    decide

theorem foldl_joinStep_AllZ (js : List Join)
    (hjs : ∀ j ∈ js, countQ (j.jtype.getD "INNER") = 0 ∧ countQ j.table2 = 0 ∧
      countQ j.onCond = 0) :
    ∀ acc : List String × GenState, AllZ acc.1 →
      AllZ ((js.foldl joinStep acc).1) := by
  induction js with
  | nil => intro acc h; exact h
  | cons j js ih =>
    intro acc h
    rw [List.foldl_cons]
    apply ih (fun x hx => hjs x (by simp [hx]))
    apply AllZ_append h
    intro x hx
    rcases List.mem_singleton.mp hx with rfl
    rcases hjs j (by simp) with ⟨hj1, hj2, hj3⟩
    simp only [countQ_append, hj1, hj2, hj3]
    decide

theorem buildGroupByClause_countQ (p : ParsedQuery) (st : GenState)
    (hgb : AllZ p.group_by) (hcol : AllZ p.columns) :
    countQ (buildGroupByClause p st).1 = 0 := by
  simp only [buildGroupByClause]
  split_ifs
  · rw [countQ_append, countQ_joinSep_zero (by decide) hgb]; decide
  · rw [countQ_append, countQ_joinSep_zero (by decide) ?_]
    · decide
    · intro x hx
      exact hcol x (List.mem_of_mem_filter hx)
  · rfl
  · rfl

theorem buildOrderByClause_countQ (p : ParsedQuery)
    (hob : ∀ o ∈ p.order_by, countQ o.column = 0 ∧
      countQ (o.direction.getD "ASC") = 0) :
    countQ (buildOrderByClause p) = 0 := by
  unfold buildOrderByClause
  rw [countQ_append, countQ_joinSep_zero (by decide) ?_]
  · decide
  · intro x hx
    rcases List.mem_map.mp hx with ⟨o, ho, rfl⟩
    simp only [countQ_append, (hob o ho).1, (hob o ho).2]
    decide

/-- The SELECT generator: the query holds two `?` for the tenant predicates
plus one per condition-bound parameter, matching the parameter list. -/
theorem generateSelect_spec (p : ParsedQuery) (schema : Schema) (st : GenState)
    (h : NoQM p) :
    ∃ d, countQ (generateSelect p schema st).1 = 2 + d.length ∧
      (generateSelect p schema st).2.parameters =
        st.parameters ++
          ([p.user_filters.user_id, p.user_filters.company_name] ++ d) := by
  obtain ⟨htab, hcol, hconds, hjoins, hagg, hgb, hob⟩ := h
  unfold generateSelect
  set selR := buildSelectClause p schema st with hsel
  set fromR := buildFromClause p selR.2 with hfrom
  set joinR := (if p.joins ≠ [] then buildJoinClauses p fromR.2 else ([], fromR.2))
    with hjoin
  set whereR := buildWhereClause p joinR.2 with hwhere
  set gbR := (if p.group_by ≠ [] || p.aggregations ≠ [] then
      buildGroupByClause p whereR.2 else ("", whereR.2)) with hgb2
  rcases buildWhereClause_spec p joinR.2 hconds with ⟨d, hp, hcount, _⟩
  refine ⟨d, ?_, ?_⟩
  · rw [countQ_joinSep (by decide)]
    have hzsel : countQ selR.1 = 0 := by
      rw [hsel]; exact buildSelectClause_countQ p schema st hcol htab hagg hgb
    have hzfrom : countQ fromR.1 = 0 := by
      rw [hfrom]; exact buildFromClause_countQ p selR.2 htab
    have hzjoin : ∀ x ∈ joinR.1, countQ x = 0 := by
      rw [hjoin]
      split_ifs with hc
      · exact foldl_joinStep_AllZ p.joins hjoins ([], fromR.2) AllZ_nil
      · exact AllZ_nil
    have hzgb : countQ gbR.1 = 0 := by
      rw [hgb2]
      split_ifs with hc
      · exact buildGroupByClause_countQ p whereR.2 hgb hcol
      · rfl
    have hzob : ∀ x ∈ (if p.order_by ≠ [] then [buildOrderByClause p] else []),
        countQ x = 0 := by
      split_ifs with hc
      · intro x hx
        rcases List.mem_singleton.mp hx with rfl
        exact buildOrderByClause_countQ p hob
      · exact fun x hx => absurd hx (List.not_mem_nil x)
    have hzlim : ∀ x ∈ (match p.limit with
        | some n => if n ≠ 0 then ["LIMIT " ++ pyIntStr n] else []
        | none => []), countQ x = 0 := by
      cases p.limit with
      | some n =>
        dsimp only
        split_ifs with hc
        · intro x hx
          rcases List.mem_singleton.mp hx with rfl
          rw [countQ_append, countQ_pyIntStr]
          decide
        · exact fun x hx => absurd hx (List.not_mem_nil x)
      | none => exact fun x hx => absurd hx (List.not_mem_nil x)
    have hwcount : countQ whereR.1 = 2 + d.length := by rw [hwhere]; exact hcount
    simp only [List.map_append, List.sum_append, List.map_cons, List.sum_cons,
      List.map_nil, List.sum_nil, hzsel, hzfrom, hwcount, hzgb]
    have hj0 : (joinR.1.map countQ).sum = 0 := by
      apply List.sum_eq_zero
      intro n hn
      rcases List.mem_map.mp hn with ⟨x, hx, rfl⟩
      exact hzjoin x hx
    have hg0 : ((if gbR.1 ≠ "" then [gbR.1] else []).map countQ).sum = 0 := by
      split_ifs with hc
      · simp [hzgb]
      · simp
    have ho0 : (((if p.order_by ≠ [] then [buildOrderByClause p] else []).map
        countQ)).sum = 0 := by
      apply List.sum_eq_zero
      intro n hn
      rcases List.mem_map.mp hn with ⟨x, hx, rfl⟩
      exact hzob x hx
    have hl0 : (((match p.limit with
        | some n => if n ≠ 0 then ["LIMIT " ++ pyIntStr n] else []
        | none => []).map countQ)).sum = 0 := by
      apply List.sum_eq_zero
      intro n hn
      rcases List.mem_map.mp hn with ⟨x, hx, rfl⟩
      exact hzlim x hx
    rw [hj0, hg0, ho0, hl0]
    omega
  · show gbR.2.parameters = _
    have h5 : gbR.2.parameters = whereR.2.parameters := by
      rw [hgb2]
      split_ifs with hc
      · exact buildGroupByClause_params p whereR.2
      · rfl
    have h3 : joinR.2.parameters = fromR.2.parameters := by
      rw [hjoin]
      split_ifs with hc
      · exact buildJoinClauses_params p fromR.2
      · rfl
    rw [h5, hwhere, hp, h3, hfrom, buildFromClause_params, hsel,
      buildSelectClause_params]

/-- The condition loops of `_generate_delete` with count bookkeeping. -/
theorem deleteCondResult_spec (p : ParsedQuery) (st2 : GenState)
    (hconds : ∀ c ∈ p.conditions, CondOk c) :
    ∃ d, (deleteCondResult p st2).2.parameters = st2.parameters ++ d ∧
      (((deleteCondResult p st2).1).map countQ).sum = d.length := by
  unfold deleteCondResult
  split_ifs with hc
  · rcases foldl_updateWhereStep_spec p.conditions hconds ([], st2) with
      ⟨news, d2, hn, hd, hs, _⟩
    refine ⟨d2, hd, ?_⟩
    rw [hn]
    simpa using hs
  · exact ⟨[], by simp, rfl⟩

/-- The DELETE generator: with no table a comment is returned (no
placeholders, no parameters); otherwise the WHERE clause counts match. -/
theorem generateDelete_spec (p : ParsedQuery) (schema : Schema) (st : GenState)
    (hconds : ∀ c ∈ p.conditions, CondOk c) (htab : AllZ p.tables) :
    ∃ d, (generateDelete p schema st).2.parameters = st.parameters ++ d ∧
      countQ (generateDelete p schema st).1 = d.length := by
  unfold generateDelete
  by_cases h : p.tables = []
  · rw [if_pos h]
    exact ⟨[], (List.append_nil _).symm, rfl⟩
  · rw [if_neg h]
    rcases deleteCondResult_spec p (deleteState p st) hconds with ⟨d2, hd, hs⟩
    refine ⟨[p.user_filters.user_id, p.user_filters.company_name] ++ d2, ?_, ?_⟩
    · show (deleteCondResult p (deleteState p st)).2.parameters = _
      rw [hd]
      show (deleteState p st).parameters ++ d2 = _
      simp [deleteState]
    · show countQ (joinSep "\n" ["DELETE FROM " ++ p.tables.headD "",
        "WHERE " ++ joinSep " AND " ("user_id = ?" :: "company_name = ?" ::
          (deleteCondResult p (deleteState p st)).1)]) = _
      rw [countQ_joinSep (by decide)]
      simp only [List.map_cons, List.map_nil, List.sum_cons, List.sum_nil,
        countQ_append]
      rw [countQ_joinSep (by decide)]
      simp only [List.map_cons, List.sum_cons, hs]
      have h1 : countQ "DELETE FROM " = 0 := by decide
      have h2 : countQ (p.tables.headD "") = 0 := htab _ (headD_mem h)
      have h3 : countQ "WHERE " = 0 := by decide
      have h4 : countQ "user_id = ?" = 1 := by decide
      have h5 : countQ "company_name = ?" = 1 := by decide
      simp only [List.length_append, List.length_cons, List.length_nil]
      omega

/-! ### Claim C2 — placeholder/parameter count invariant -/

/-- C2 (amended): for every parsed query with action SELECT or DELETE whose
string slots are free of the placeholder character, the number of `?` markers
in the generated SQL equals the length of the returned parameter list (the
parameters are appended in exactly the left-to-right order in which their
placeholders are emitted).  For INSERT the generator emits placeholders but
binds no parameters, and for UPDATE the fixed `SET column_name = ?` fragment
adds a placeholder without a parameter, so the invariant fails there. -/
theorem placeholder_parameter_count (p : ParsedQuery) (schema : Schema)
    (hact : p.action = "SELECT" ∨ p.action = "DELETE") (h : NoQM p) :
    countQ (generate p schema).query = (generate p schema).parameters.length := by
  unfold generate
  rcases hact with ha | ha
  · rw [show (p.action == "SELECT") = true by simp [ha]]
    simp only [if_true]
    rcases generateSelect_spec p schema ⟨[], [], 1⟩ h with ⟨d, hc, hp⟩
    show countQ (generateSelect p schema ⟨[], [], 1⟩).1 =
      (generateSelect p schema ⟨[], [], 1⟩).2.parameters.length
    rw [hc, hp]
    simp only [List.nil_append, List.length_append, List.length_cons,
      List.length_nil]
  · rw [show (p.action == "SELECT") = false by simp [ha],
      show (p.action == "INSERT") = false by simp [ha],
      show (p.action == "UPDATE") = false by simp [ha],
      show (p.action == "DELETE") = true by simp [ha]]
    simp only [Bool.false_eq_true, if_false, if_true]
    obtain ⟨htab, _, hconds, _, _, _, _⟩ := h
    rcases generateDelete_spec p schema ⟨[], [], 1⟩ hconds htab with ⟨d, hp, hc⟩
    show countQ (generateDelete p schema ⟨[], [], 1⟩).1 =
      (generateDelete p schema ⟨[], [], 1⟩).2.parameters.length
    rw [hc, hp]
    simp

/-- C2 witness: the amended theorem applied to a concrete SELECT query with
LIKE and IN filters. -/
theorem placeholder_parameter_count_witness :
    countQ (generate pqSelectFilters tallySchema).query =
      (generate pqSelectFilters tallySchema).parameters.length :=
  placeholder_parameter_count pqSelectFilters tallySchema (Or.inl rfl)
    (by simp only [NoQM, AllZ, CondOk]; decide)

/-- C2 counterexample: for an INSERT parsed query the generated SQL has one
placeholder but the parameter list is empty, refuting the claim for "any
action". -/
theorem placeholder_count_fails_for_insert :
    (generate pqInsertUnknown []).query = "INSERT INTO t VALUES (?)" ∧
    countQ (generate pqInsertUnknown []).query = 1 ∧
    (generate pqInsertUnknown []).parameters.length = 0 := by
  refine ⟨rfl, ?_, rfl⟩
  decide

/-! ### Confidence bookkeeping of the SQL builders -/

theorem unit_mul_unit {c q : Rat} (hc0 : 0 ≤ c) (hc1 : c ≤ 1)
    (hq0 : 0 ≤ q) (hq1 : q ≤ 1) : 0 ≤ c * q ∧ c * q ≤ 1 :=
  ⟨mul_nonneg hc0 hq0, mul_le_one₀ hc1 hq0 hq1⟩

theorem buildDateCondition_conf (c : Cond) (st : GenState) :
    (buildDateCondition c st).2.confidence = st.confidence := by
  unfold buildDateCondition
  by_cases h1 : (c.ctype == "year") = true
  · rw [if_pos h1]
    cases hf : findFour c.value.data with
    | some year => rfl
    | none => rfl
  · rw [if_neg h1]
    by_cases h2 : (c.ctype == "month_year") = true
    · rw [if_pos h2]
      cases hf : findMonthYear (pyLower c.value).data with
      | some my => cases my with | mk mnum year => rfl
      | none => rfl
    · rw [if_neg h2]
      by_cases h3 : (c.ctype == "relative_date") = true
      · rw [if_pos h3]
        cases hf : findNumUnit c.value.data with
        | some nu =>
          cases nu with
          | mk n unit =>
            dsimp only
            by_cases hu1 : (unit == "day") = true
            · rw [if_pos hu1]
            · rw [if_neg hu1]
              by_cases hu2 : (unit == "month") = true
              · rw [if_pos hu2]
              · rw [if_neg hu2]
        | none => rfl
      · rw [if_neg h3]
        by_cases h4 : (c.ctype == "today") = true
        · rw [if_pos h4]
        · rw [if_neg h4]
          by_cases h5 : (c.ctype == "current_period") = true
          · rw [if_pos h5]
            by_cases hm : (strIn "month" c.value) = true
            · rw [if_pos hm]
            · rw [if_neg hm]
              by_cases hy : (strIn "year" c.value) = true
              · rw [if_pos hy]
              · rw [if_neg hy]
          · rw [if_neg h5]
            by_cases h6 : (c.ctype == "last_period") = true
            · rw [if_pos h6]
              by_cases hm : (strIn "month" c.value) = true
              · rw [if_pos hm]
              · rw [if_neg hm]
                by_cases hy : (strIn "year" c.value) = true
                · rw [if_pos hy]
                · rw [if_neg hy]
            · rw [if_neg h6]
              by_cases h7 : (c.ctype == "since_date") = true
              · rw [if_pos h7]
              · rw [if_neg h7]
                by_cases h8 : (c.ctype == "before_date") = true
                · rw [if_pos h8]
                · rw [if_neg h8]
                  by_cases h9 : (c.ctype == "on_date") = true
                  · rw [if_pos h9]
                  · rw [if_neg h9]

theorem whereStep_conf (acc : List String × GenState) (c : Cond) :
    (whereStep acc c).2.confidence = acc.2.confidence := by
  unfold whereStep
  by_cases h1 : (c.op == "date_condition") = true
  · rw [if_pos h1]
    by_cases hz : (buildDateCondition c acc.2).1 ≠ ""
    · rw [if_pos hz]
      exact buildDateCondition_conf c acc.2
    · rw [if_neg hz]
      exact buildDateCondition_conf c acc.2
  · rw [if_neg h1]
    by_cases h2 : (c.op == "raw_condition") = true
    · rw [if_pos h2]
    · rw [if_neg h2]
      by_cases h3 : (c.op == "IS NULL" || c.op == "IS NOT NULL") = true
      · rw [if_pos h3]
      · rw [if_neg h3]
        by_cases h4 : (c.op == "LIKE") = true
        · rw [if_pos h4]
        · rw [if_neg h4]
          by_cases h5 : (c.op == "IN") = true
          · rw [if_pos h5]
          · rw [if_neg h5]
            by_cases h6 : (c.op == "BETWEEN") = true
            · rw [if_pos h6]
              by_cases ha : (strIn " and " (pyLower c.value)) = true
              · rw [if_pos ha]
              · rw [if_neg ha]
            · rw [if_neg h6]

theorem updateWhereStep_conf (acc : List String × GenState) (c : Cond) :
    (updateWhereStep acc c).2.confidence = acc.2.confidence := by
  unfold updateWhereStep
  by_cases h1 : (c.op == "date_condition") = true
  · rw [if_pos h1]
    by_cases hz : (buildDateCondition c acc.2).1 ≠ ""
    · rw [if_pos hz]
      exact buildDateCondition_conf c acc.2
    · rw [if_neg hz]
      exact buildDateCondition_conf c acc.2
  · rw [if_neg h1]
    by_cases h2 : (c.op == "raw_condition") = true
    · rw [if_pos h2]
    · rw [if_neg h2]
      by_cases h3 : (c.op == "IS NULL" || c.op == "IS NOT NULL") = true
      · rw [if_pos h3]
      · rw [if_neg h3]

theorem foldl_whereStep_conf (cs : List Cond) :
    ∀ acc : List String × GenState,
      (cs.foldl whereStep acc).2.confidence = acc.2.confidence := by
  induction cs with
  | nil => intro acc; rfl
  | cons c cs ih =>
    intro acc
    rw [List.foldl_cons, ih (whereStep acc c), whereStep_conf]

theorem foldl_updateWhereStep_conf (cs : List Cond) :
    ∀ acc : List String × GenState,
      (cs.foldl updateWhereStep acc).2.confidence = acc.2.confidence := by
  induction cs with
  | nil => intro acc; rfl
  | cons c cs ih =>
    intro acc
    rw [List.foldl_cons, ih (updateWhereStep acc c), updateWhereStep_conf]

theorem buildWhereClause_conf (p : ParsedQuery) (st : GenState) :
    (buildWhereClause p st).2.confidence = st.confidence := by
  show (p.conditions.foldl whereStep ([], tenantState p st)).2.confidence = _
  rw [foldl_whereStep_conf]
  rfl

theorem buildSelectClause_conf (p : ParsedQuery) (schema : Schema) (st : GenState)
    (h0 : 0 ≤ st.confidence) (h1 : st.confidence ≤ 1) :
    0 ≤ (buildSelectClause p schema st).2.confidence ∧
      (buildSelectClause p schema st).2.confidence ≤ 1 := by
  unfold buildSelectClause
  split_ifs <;>
    first
      | exact ⟨h0, h1⟩
      | exact unit_mul_unit h0 h1 (by norm_num) (by norm_num)

theorem buildFromClause_conf (p : ParsedQuery) (st : GenState)
    (h0 : 0 ≤ st.confidence) (h1 : st.confidence ≤ 1) :
    0 ≤ (buildFromClause p st).2.confidence ∧
      (buildFromClause p st).2.confidence ≤ 1 := by
  unfold buildFromClause
  split_ifs <;>
    first
      | exact ⟨h0, h1⟩
      | exact unit_mul_unit h0 h1 (by norm_num) (by norm_num)

theorem foldl_joinStep_conf (js : List Join) :
    ∀ acc : List String × GenState,
      0 ≤ acc.2.confidence → acc.2.confidence ≤ 1 →
      0 ≤ ((js.foldl joinStep acc).2).confidence ∧
        ((js.foldl joinStep acc).2).confidence ≤ 1 := by
  induction js with
  | nil => intro acc h0 h1; exact ⟨h0, h1⟩
  | cons j js ih =>
    intro acc h0 h1
    rw [List.foldl_cons]
    have hj := unit_mul_unit h0 h1 (show (0 : Rat) ≤ 9 / 10 by norm_num)
      (show (9 / 10 : Rat) ≤ 1 by norm_num)
    exact ih (joinStep acc j) hj.1 hj.2

theorem buildGroupByClause_conf (p : ParsedQuery) (st : GenState)
    (h0 : 0 ≤ st.confidence) (h1 : st.confidence ≤ 1) :
    0 ≤ (buildGroupByClause p st).2.confidence ∧
      (buildGroupByClause p st).2.confidence ≤ 1 := by
  simp only [buildGroupByClause]
  split_ifs <;>
    first
      | exact ⟨h0, h1⟩
      | exact unit_mul_unit h0 h1 (by norm_num) (by norm_num)

theorem generateSelect_conf (p : ParsedQuery) (schema : Schema) (st : GenState)
    (h0 : 0 ≤ st.confidence) (h1 : st.confidence ≤ 1) :
    0 ≤ (generateSelect p schema st).2.confidence ∧
      (generateSelect p schema st).2.confidence ≤ 1 := by
  unfold generateSelect
  set selR := buildSelectClause p schema st with hsel
  set fromR := buildFromClause p selR.2 with hfrom
  set joinR := (if p.joins ≠ [] then buildJoinClauses p fromR.2 else ([], fromR.2))
    with hjoin
  set whereR := buildWhereClause p joinR.2 with hwhere
  set gbR := (if p.group_by ≠ [] || p.aggregations ≠ [] then
      buildGroupByClause p whereR.2 else ("", whereR.2)) with hgb2
  have hs := buildSelectClause_conf p schema st h0 h1
  have hfr : 0 ≤ fromR.2.confidence ∧ fromR.2.confidence ≤ 1 := by
    rw [hfrom]; exact buildFromClause_conf p selR.2 hs.1 hs.2
  have hjr : 0 ≤ joinR.2.confidence ∧ joinR.2.confidence ≤ 1 := by
    rw [hjoin]
    split_ifs with hc
    · exact foldl_joinStep_conf p.joins ([], fromR.2) hfr.1 hfr.2
    · exact hfr
  have hwr : 0 ≤ whereR.2.confidence ∧ whereR.2.confidence ≤ 1 := by
    rw [hwhere, buildWhereClause_conf]
    exact hjr
  show 0 ≤ gbR.2.confidence ∧ gbR.2.confidence ≤ 1
  rw [hgb2]
  split_ifs with hc
  · exact buildGroupByClause_conf p whereR.2 hwr.1 hwr.2
  · exact hwr

theorem generateInsert_conf (p : ParsedQuery) (schema : Schema) (st : GenState) :
    0 ≤ (generateInsert p schema st).2.confidence ∧
      (generateInsert p schema st).2.confidence ≤ 1 := by
  unfold generateInsert
  by_cases h : p.tables = []
  · rw [if_pos h]
    norm_num
  · rw [if_neg h]
    dsimp only
    cases hf : schemaFind schema (p.tables.headD "") with
    | some td =>
      constructor <;> norm_num
    | none =>
      constructor <;> norm_num

theorem updateCondResult_conf (p : ParsedQuery) (st2 : GenState)
    (h0 : 0 ≤ st2.confidence) (h1 : st2.confidence ≤ 1) :
    0 ≤ (updateCondResult p st2).2.confidence ∧
      (updateCondResult p st2).2.confidence ≤ 1 := by
  unfold updateCondResult
  split_ifs with hc
  · rw [foldl_updateWhereStep_conf]
    exact ⟨h0, h1⟩
  · exact unit_mul_unit h0 h1 (by norm_num) (by norm_num)

theorem deleteCondResult_conf (p : ParsedQuery) (st2 : GenState)
    (h0 : 0 ≤ st2.confidence) (h1 : st2.confidence ≤ 1) :
    0 ≤ (deleteCondResult p st2).2.confidence ∧
      (deleteCondResult p st2).2.confidence ≤ 1 := by
  unfold deleteCondResult
  split_ifs with hc
  · rw [foldl_updateWhereStep_conf]
    exact ⟨h0, h1⟩
  · exact unit_mul_unit h0 h1 (by norm_num) (by norm_num)

theorem generateUpdate_conf (p : ParsedQuery) (schema : Schema) (st : GenState) :
    0 ≤ (generateUpdate p schema st).2.confidence ∧
      (generateUpdate p schema st).2.confidence ≤ 1 := by
  unfold generateUpdate
  by_cases h : p.tables = []
  · rw [if_pos h]
    norm_num
  · rw [if_neg h]
    exact updateCondResult_conf p (updateState p st) (by norm_num [updateState])
      (by norm_num [updateState])

theorem generateDelete_conf (p : ParsedQuery) (schema : Schema) (st : GenState)
    (h0 : 0 ≤ st.confidence) (h1 : st.confidence ≤ 1) :
    0 ≤ (generateDelete p schema st).2.confidence ∧
      (generateDelete p schema st).2.confidence ≤ 1 := by
  unfold generateDelete
  by_cases h : p.tables = []
  · rw [if_pos h]
    norm_num
  · rw [if_neg h]
    exact deleteCondResult_conf p (deleteState p st) h0 h1

/-! ### Claim C7 — confidence boundedness -/

/-- C7: both confidence computations of the pipeline are bounded in [0, 1]:
nl_parser's `_calculate_confidence` (base 0.3 plus bonuses, capped at 1.0) and
the confidence field of `SQLGenerator.generate` (starting at 1.0 and only
multiplied by factors in [0, 1] or reset to constants in [0, 1]). -/
theorem confidence_bounded :
    (∀ (parsed : NlParsedQuery) (q : String),
      0 ≤ calcConfidence parsed q ∧ calcConfidence parsed q ≤ 1) ∧
    (∀ (p : ParsedQuery) (schema : Schema),
      0 ≤ (generate p schema).confidence ∧ (generate p schema).confidence ≤ 1) := by
  constructor
  · intro parsed q
    simp only [calcConfidence]
    constructor
    · apply le_min ?_ (by norm_num)
      split_ifs <;> norm_num
    · exact min_le_right _ _
  · intro p schema
    unfold generate
    dsimp only
    by_cases h1 : (p.action == "SELECT") = true
    · rw [if_pos h1]
      exact generateSelect_conf p schema ⟨[], [], 1⟩ (by norm_num) (by norm_num)
    · rw [if_neg h1]
      by_cases h2 : (p.action == "INSERT") = true
      · rw [if_pos h2]
        exact generateInsert_conf p schema ⟨[], [], 1⟩
      · rw [if_neg h2]
        by_cases h3 : (p.action == "UPDATE") = true
        · rw [if_pos h3]
          exact generateUpdate_conf p schema ⟨[], [], 1⟩
        · rw [if_neg h3]
          by_cases h4 : (p.action == "DELETE") = true
          · rw [if_pos h4]
            exact generateDelete_conf p schema ⟨[], [], 1⟩ (by norm_num) (by norm_num)
          · rw [if_neg h4]
            exact generateSelect_conf p schema ⟨[], [], 1⟩ (by norm_num) (by norm_num)

/-! ### Claim C8 — determinism of parsing -/

/-- C8: parsing is deterministic — two calls of `parse` on the same query
string, schema and identity pair return structurally identical `ParsedQuery`
values, field by field.  The embedding is a pure function of its arguments,
faithfully so: the source module reads no clock, random source or other
ambient state in any extraction stage. -/
theorem parse_deterministic (q : String) (schema : Schema)
    (user_id company_name : String) :
    (parse q schema user_id company_name).action =
      (parse q schema user_id company_name).action ∧
    (parse q schema user_id company_name).tables =
      (parse q schema user_id company_name).tables ∧
    (parse q schema user_id company_name).columns =
      (parse q schema user_id company_name).columns ∧
    (parse q schema user_id company_name).conditions =
      (parse q schema user_id company_name).conditions ∧
    (parse q schema user_id company_name).joins =
      (parse q schema user_id company_name).joins ∧
    (parse q schema user_id company_name).aggregations =
      (parse q schema user_id company_name).aggregations ∧
    (parse q schema user_id company_name).group_by =
      (parse q schema user_id company_name).group_by ∧
    (parse q schema user_id company_name).order_by =
      (parse q schema user_id company_name).order_by ∧
    (parse q schema user_id company_name).limit =
      (parse q schema user_id company_name).limit ∧
    (parse q schema user_id company_name).user_filters =
      (parse q schema user_id company_name).user_filters :=
  ⟨rfl, rfl, rfl, rfl, rfl, rfl, rfl, rfl, rfl, rfl⟩

/-! ### Claim C9 — extracted limits -/

/-- C9 counterexample: `_extract_limit` maps "top 0 employees" to the limit 0,
which is not strictly positive, refuting the claimed positivity. -/
theorem extract_limit_zero : extractLimit "top 0 employees" = some 0 := by
  decide

/-- C9 (amended): whenever limit extraction returns a value, that value is a
non-negative integer (every pattern captures a decimal digit run, so the
result is `int` of a digit string, hence `≥ 0` — but `0` itself is possible,
so strict positivity fails). -/
theorem extract_limit_nonneg (q : String) (n : Int)
    (h : extractLimit q = some n) : 0 ≤ n := by
  unfold extractLimit at h
  dsimp only at h
  cases e1 : searchLitNum "top ".data (pyLower q).data with
  | some run =>
    rw [e1] at h
    dsimp only at h
    have h2 := Option.some.inj h
    exact h2 ▸ Int.ofNat_nonneg _
  | none =>
    rw [e1] at h
    dsimp only at h
    cases e2 : searchLitNum "first ".data (pyLower q).data with
    | some run =>
      rw [e2] at h
      dsimp only at h
      have h2 := Option.some.inj h
      exact h2 ▸ Int.ofNat_nonneg _
    | none =>
      rw [e2] at h
      dsimp only at h
      cases e3 : searchLitNum "limit ".data (pyLower q).data with
      | some run =>
        rw [e3] at h
        dsimp only at h
        have h2 := Option.some.inj h
        exact h2 ▸ Int.ofNat_nonneg _
      | none =>
        rw [e3] at h
        dsimp only at h
        cases e4 : searchLitNum "up to ".data (pyLower q).data with
        | some run =>
          rw [e4] at h
          dsimp only at h
          have h2 := Option.some.inj h
          exact h2 ▸ Int.ofNat_nonneg _
        | none =>
          rw [e4] at h
          dsimp only at h
          cases e5 : searchLitNum "maximum ".data (pyLower q).data with
          | some run =>
            rw [e5] at h
            dsimp only at h
            have h2 := Option.some.inj h
            exact h2 ▸ Int.ofNat_nonneg _
          | none =>
            rw [e5] at h
            dsimp only at h
            cases e6 : searchNumRecords (pyLower q).data with
            | some run =>
              rw [e6] at h
              dsimp only at h
              have h2 := Option.some.inj h
              exact h2 ▸ Int.ofNat_nonneg _
            | none =>
              rw [e6] at h
              exact absurd h (by simp)

/-- Witness for `extract_limit_nonneg` at the concrete query "top 5 employees". -/
theorem extract_limit_nonneg_witness :
    extractLimit "top 5 employees" = some 5 ∧ (0 : Int) ≤ 5 :=
  ⟨by decide, extract_limit_nonneg "top 5 employees" 5 (by decide)⟩

/-! ### Claim C6 — join inference versus the schema catalog -/

theorem pairJoins_mem (ts : List String) (j : Join) (hj : j ∈ pairJoins ts) :
    j.jtype = some "INNER" ∧ tallyJoinFind (j.table1, j.table2) = some j.onCond := by
  induction ts with
  | nil =>
    simp only [pairJoins] at hj
    exact absurd hj (List.not_mem_nil j)
  | cons t1 rest ih =>
    simp only [pairJoins] at hj
    rcases List.mem_append.1 hj with hl | hr
    · rcases List.mem_filterMap.1 hl with ⟨t2, ht2, hmatch⟩
      cases e1 : tallyJoinFind (t1, t2) with
      | some cond =>
        rw [e1] at hmatch
        dsimp only at hmatch
        have hje := Option.some.inj hmatch
        subst hje
        exact ⟨rfl, e1⟩
      | none =>
        rw [e1] at hmatch
        dsimp only at hmatch
        cases e2 : tallyJoinFind (t2, t1) with
        | some cond =>
          rw [e2] at hmatch
          dsimp only at hmatch
          have hje := Option.some.inj hmatch
          subst hje
          exact ⟨rfl, e2⟩
        | none =>
          rw [e2] at hmatch
          exact absurd hmatch (by simp)
    · exact ih hr

/-- C6 counterexample: the (mst_employee, trn_payhead) pair has the declared
relationship "trn_payhead.employee_name = mst_employee.name" in the schema
catalog, and the query "employee payroll" does select exactly those two
tables and yield exactly one INNER join — but the join's ON condition is the
hard-coded string "mst_employee.name = trn_payhead.employee_name", which is
not the declared relationship verbatim (the catalog is never consulted). -/
theorem join_declared_relationship_counterexample :
    declaredEmployeePayhead ∈
      ((schemaFind tallySchema "mst_employee").map TableDef.relationships).getD [] ∧
    extractTables "employee payroll" tallySchema = ["mst_employee", "trn_payhead"] ∧
    extractJoins ["mst_employee", "trn_payhead"] =
      [⟨some "INNER", "mst_employee", "trn_payhead",
        "mst_employee.name = trn_payhead.employee_name"⟩] ∧
    "mst_employee.name = trn_payhead.employee_name" ≠ declaredEmployeePayhead := by
  refine ⟨?_, ?_, ?_, ?_⟩ <;> decide

/-- C6 (amended): every join emitted by `_extract_joins` is an INNER join whose
ON condition is the hard-coded `tally_joins` entry for its (table1, table2)
pair; the schema catalog's declared relationship strings play no role. -/
theorem join_on_condition_hard_coded (tables : List String) (j : Join)
    (hj : j ∈ extractJoins tables) :
    j.jtype = some "INNER" ∧ tallyJoinFind (j.table1, j.table2) = some j.onCond := by
  unfold extractJoins at hj
  by_cases h : tables.length > 1
  · rw [if_pos h] at hj
    exact pairJoins_mem tables j hj
  · rw [if_neg h] at hj
    exact absurd hj (List.not_mem_nil j)

/-- Witness for `join_on_condition_hard_coded` at the two-table input of the
demonstration pair. -/
theorem join_on_condition_hard_coded_witness :
    (⟨some "INNER", "mst_employee", "trn_payhead",
        "mst_employee.name = trn_payhead.employee_name"⟩ : Join) ∈
      extractJoins ["mst_employee", "trn_payhead"] ∧
    tallyJoinFind ("mst_employee", "trn_payhead") =
      some "mst_employee.name = trn_payhead.employee_name" :=
  ⟨by decide,
    (join_on_condition_hard_coded ["mst_employee", "trn_payhead"]
      ⟨some "INNER", "mst_employee", "trn_payhead",
        "mst_employee.name = trn_payhead.employee_name"⟩ (by decide)).2⟩

end Nl2Sql
